import Mathlib

/-!
# Simple-FTP server: request validation and connection handling

A shallow embedding of `src/server/Util.cpp`, `src/server/ParsedRequest.cpp`,
`src/server/SocketServer.cpp` and `getValidPort` of `src/server/main.cpp`.

Conventions of the embedding:

* `std::string` is a Lean `String`; every test the code makes on a character
  (white space, digit, sign, newline, dot, NUL) concerns an ASCII character, so
  a byte of the C++ string is read as the character with the same code.
* `int` is a 32-bit and `long` a 64-bit two's complement integer (LP64); both
  are carried as `Int`, with the narrowing `long → int` written out in `toInt`.
* `std::vector::operator[]` is unchecked; the embedding returns `none` where
  the index would be out of bounds, so a result `some r` says that every
  access was in bounds.
* Member functions take the object as `self` and return the updated object
  next to their `bool` result.
* The file system, the peer and the socket layer are a parameter, `World`;
  what the server does on its sockets is recorded as a list of `Event`s.
  Output on the console is left out of the events.
-/

namespace SimpleFTP

/-! ## Util.cpp -/

/-- The characters for which `isspace` holds in the "C" locale; the same six
characters are the argument of `find_first_not_of` in `hasAnyValue`. -/
def isspace (c : Char) : Bool :=
  " \t\n\x0b\x0c\r".data.contains c

/-- The decimal digits, `isdigit` in the "C" locale. -/
def isdigit (c : Char) : Bool :=
  decide ('0' ≤ c) && decide (c ≤ '9')

/-- Model of `content.find_first_not_of(" \t\n\v\f\r") != string::npos`. -/
def hasAnyValue (content : String) : Bool :=
  content.data.any (fun c => !isspace c)

/-- Model of `std::string::c_str` read as a C string: the characters before
the first NUL. -/
def c_str (s : String) : List Char :=
  s.data.takeWhile (fun c => c != '\x00')

/-- Largest `long`. -/
def LONG_MAX : Int := 2 ^ 63 - 1

/-- Smallest `long`. -/
def LONG_MIN : Int := -(2 ^ 63)

/-- Value of a decimal digit character. -/
def digitValue (c : Char) : Int :=
  (c.toNat : Int) - ('0'.toNat : Int)

/-- Model of `strtol(nptr, &endptr, 10)`: the converted value, clamped to the
range of `long`, and the part of the string `endptr` points at. White space is
skipped, one sign is accepted, then the longest run of digits is converted;
without any digit nothing is converted and `endptr` is `nptr`. -/
def strtol (nptr : List Char) : Int × List Char :=
  let s := nptr.dropWhile isspace
  let negative := s.head? == some '-'
  let s1 := if s.head? == some '-' || s.head? == some '+' then s.tail else s
  let digits := s1.takeWhile isdigit
  if digits.isEmpty then (0, nptr)
  else
    let magnitude := digits.foldl (fun acc d => acc * 10 + digitValue d) 0
    let v := if negative then -magnitude else magnitude
    (max LONG_MIN (min LONG_MAX v), s1.dropWhile isdigit)

/-- Conversion of a `long` to `int`: reduction modulo `2^32` into
`[-2^31, 2^31)`. -/
def toInt (v : Int) : Int :=
  (v + 2 ^ 31) % 2 ^ 32 - 2 ^ 31

/-- Model of `isInt(string content, int &value)`: the `bool` result and the
content of `value` afterwards. -/
def isInt (content : String) (value : Int) : Bool × Int :=
  if !hasAnyValue content then (false, value)
  else
    let r := strtol (c_str content)
    (r.2.isEmpty, toInt r.1)

/-- Model of `iss >> word`: skip white space, then take the characters up to
the next white space; the extraction fails when no character is left. The
result is the word and the rest of the stream. -/
def extractWord (iss : List Char) : Option (String × List Char) :=
  let s := iss.dropWhile isspace
  let word := s.takeWhile (fun c => !isspace c)
  if word.isEmpty then none
  else some (String.mk word, s.dropWhile (fun c => !isspace c))

/-- The loop `while (iss >> word) words.push_back(word)` of `split`, with a
bound on the number of iterations. -/
def splitLoop : Nat → List Char → List String → List String
  | 0, _, words => words
  | n + 1, iss, words =>
    match extractWord iss with
    | none => words
    | some (word, rest) => splitLoop n rest (words ++ [word])

/-- Model of `split`: each extraction consumes a character, so the length of
the input bounds the number of iterations. -/
def split (input : String) : List String :=
  splitLoop input.data.length input.data []

/-- Model of `std::to_string` on an integer. -/
def to_string (n : Int) : String :=
  toString n

/-! ## ParsedRequest.cpp -/

/-- The member variables of the class `ParsedRequest`. -/
structure ParsedRequest where
  commandPort : Int
  components : List String
  command : String
  filename : String
  dataPort : Int
  errorFlag : Bool
  errorMessage : String
  deriving DecidableEq, Repr

/-- Model of `components[i]` for a `size_t` index: `none` when out of bounds. -/
def ParsedRequest.component (self : ParsedRequest) (i : Nat) : Option String :=
  self.components.get? i

/-- Model of `ParsedRequest::raiseErrorFlag`. -/
def ParsedRequest.raiseErrorFlag (self : ParsedRequest) (message : String) :
    Bool × ParsedRequest :=
  (false, { self with errorFlag := true, errorMessage := "Error: " ++ message })

/-- Model of `ParsedRequest::componentCountIsValid`. -/
def ParsedRequest.componentCountIsValid (self : ParsedRequest) : Bool × ParsedRequest :=
  let componentCount := self.components.length
  let VALID_MIN := 2
  let VALID_MAX := 3
  if componentCount < VALID_MIN then
    self.raiseErrorFlag "Too few FTP request arguments were provided."
  else if componentCount > VALID_MAX then
    self.raiseErrorFlag "Too many FTP request arguments were provided."
  else (true, self)

/-- Model of `ParsedRequest::commandIsValid`. -/
def ParsedRequest.commandIsValid (self : ParsedRequest) : Option (Bool × ParsedRequest) :=
  match self.component 0 with
  | none => none
  | some prospect =>
    let count := self.components.length
    let LIST_CMD := "-l"
    let LIST_ALL_CMD := "-la"
    let LIST_WITH_SIZE_CMD := "-ll"
    let LIST_RECURSIVE_CMD := "-lr"
    let GET_CMD := "-g"
    if (count == 2 && prospect == LIST_CMD) ||
        (count == 2 && prospect == LIST_ALL_CMD) ||
        (count == 2 && prospect == LIST_WITH_SIZE_CMD) ||
        (count == 2 && prospect == LIST_RECURSIVE_CMD) ||
        (count == 3 && prospect == GET_CMD) then
      some (true, { self with command := prospect })
    else if prospect != LIST_CMD &&
        prospect != LIST_ALL_CMD &&
        prospect != LIST_WITH_SIZE_CMD &&
        prospect != LIST_RECURSIVE_CMD &&
        prospect != GET_CMD then
      some (self.raiseErrorFlag ("An invalid command was provided. Please use \"" ++
        LIST_CMD ++ "\", \"" ++ LIST_ALL_CMD ++ "\", \"" ++ LIST_WITH_SIZE_CMD ++
        "\", \"" ++ LIST_RECURSIVE_CMD ++ "\", or \"" ++ GET_CMD ++ "\"."))
    else if count == 2 || count == 3 then
      some (self.raiseErrorFlag ("Command mismatch: " ++ to_string count ++
        " arguments were provided with a command of " ++ prospect ++ "."))
    else
      some (self.raiseErrorFlag "Invalid component count: commandIsValid().")

/-- Model of `ParsedRequest::fileNameIsValid`. -/
def ParsedRequest.fileNameIsValid (self : ParsedRequest) : Option (Bool × ParsedRequest) :=
  if self.command == "-g" then
    match self.component 1 with
    | none => none
    | some fileName =>
      if !hasAnyValue fileName then
        some (self.raiseErrorFlag "No file name was provided. Please provide one")
      else
        some (true, { self with filename := fileName })
  else some (true, self)

/-- Model of `ParsedRequest::dataPortIsValid`. The index `count - 1` is
computed in `size_t`, modulo `2^64`; `dPort` is uninitialised before `isInt`
and read only after `isInt` has assigned it. -/
def ParsedRequest.dataPortIsValid (self : ParsedRequest) : Option (Bool × ParsedRequest) :=
  let MIN_VALID_PORT : Int := 1024
  let MAX_VALID_PORT : Int := 65535
  let count := self.components.length
  match self.component ((count + 2 ^ 64 - 1) % 2 ^ 64) with
  | none => none
  | some portComponent =>
    let r := isInt portComponent 0
    let dPort := r.2
    if !r.1 then
      some (self.raiseErrorFlag
        ("Non-numeric data port argument. Please provide a numeric port in the range: " ++
          to_string MIN_VALID_PORT ++ ".." ++ to_string MAX_VALID_PORT))
    else if dPort < MIN_VALID_PORT || dPort > MAX_VALID_PORT then
      some (self.raiseErrorFlag
        ("Invalid data port argument. Please provide a numeric port in the range: " ++
          to_string MIN_VALID_PORT ++ ".." ++ to_string MAX_VALID_PORT))
    else if dPort == self.commandPort then
      some (self.raiseErrorFlag
        "Invalid data port argument. The data port should not be the same as the command port.")
    else
      some (true, { self with dataPort := dPort })

/-- Model of `ParsedRequest::parseRequest`; the chain of `&&` evaluates a
check only when every check before it returned `true`. -/
def ParsedRequest.parseRequest (self : ParsedRequest) (request : String) :
    Option (Bool × ParsedRequest) :=
  if !hasAnyValue request then
    some (self.raiseErrorFlag "The FTP request does not appear to have any valid arguments.")
  else
    let self1 := { self with components := split request }
    let r1 := self1.componentCountIsValid
    if !r1.1 then some (false, r1.2)
    else
      match r1.2.commandIsValid with
      | none => none
      | some r2 =>
        if !r2.1 then some (false, r2.2)
        else
          match r2.2.dataPortIsValid with
          | none => none
          | some r3 =>
            if !r3.1 then some (false, r3.2)
            else r3.2.fileNameIsValid

/-- Model of the constructor `ParsedRequest::ParsedRequest(request, commandPort)`:
the object after construction, or `none` when an access was out of bounds. -/
def ParsedRequest.create (request : String) (commandPort : Int) : Option ParsedRequest :=
  let self : ParsedRequest :=
    { commandPort := commandPort, components := [], command := "", filename := "",
      dataPort := -1, errorFlag := false, errorMessage := "" }
  (self.parseRequest request).map Prod.snd

/-! ## Util.cpp: directory listings -/

/-- The fields of `struct dirent` the code reads. -/
structure dirent where
  d_name : String
  d_type : Nat
  deriving DecidableEq, Repr

/-- The value of `DT_DIR` in `dirent.h`. -/
def DT_DIR : Nat := 4

/-- The value of `DT_REG` in `dirent.h`. -/
def DT_REG : Nat := 8

/-- The value of `DT_LNK` in `dirent.h`. -/
def DT_LNK : Nat := 10

/-- The value of `PATH_MAX` in `limits.h`. -/
def PATH_MAX : Nat := 4096

/-- The `enum Color` of `Util.hpp`. -/
inductive Color where
  | BLACK | RED | GREEN | YELLOW | BLUE | MAGENTA | CYAN | WHITE | GREY
  | DEFAULT_COLOR | INVISIBLE
  deriving DecidableEq, Repr

/-- The `enum ColorFormat` of `Util.hpp`. -/
inductive ColorFormat where
  | DEFAULT_FORMAT | BOLD | DIM | UNDERLINED | BLINK | REVERSE | HIDDEN
  deriving DecidableEq, Repr

/-- What the server finds outside itself: the directory entries `readdir`
delivers for a path (`none` when `opendir` fails), the size `stat` reports for
a name (`none` when `stat` fails), the content of a file that can be opened
for reading (`none` when it cannot), the local port of a socket and the socket
`getDataSocket` returns once connected. -/
structure World where
  opendir : String → Option (List dirent)
  stat : String → Option Int
  ifstream : String → Option String
  portFromSocket : Int → Int
  getDataSocket : String → Int → Int

/-- Model of `fileIsHidden`: `entry->d_name[0] == '.'`. -/
def fileIsHidden (entry : dirent) : Bool :=
  entry.d_name.data.head? == some '.'

/-- Model of `fileSize`. -/
def fileSize (w : World) (entry : dirent) : Int :=
  match w.stat entry.d_name with
  | some st_size => st_size
  | none => -1

/-- Model of `inColor`; `"\033"` is the escape character. -/
def inColor (content : String) (foreGround backGround : Color) (format : ColorFormat) :
    String :=
  let fgColor :=
    match foreGround with
    | Color.DEFAULT_COLOR => "39"
    | Color.BLACK => "30"
    | Color.RED => "31"
    | Color.GREEN => "32"
    | Color.YELLOW => "33"
    | Color.BLUE => "34"
    | Color.MAGENTA => "35"
    | Color.CYAN => "36"
    | Color.WHITE => "97"
    | Color.GREY => "37"
    | Color.INVISIBLE => ""
  let bgColor :=
    match backGround with
    | Color.DEFAULT_COLOR => "49"
    | Color.BLACK => "40"
    | Color.RED => "41"
    | Color.GREEN => "42"
    | Color.YELLOW => "43"
    | Color.BLUE => "44"
    | Color.MAGENTA => "45"
    | Color.CYAN => "46"
    | Color.WHITE => "107"
    | Color.GREY => "47"
    | Color.INVISIBLE => ""
  let formatSet :=
    match format with
    | ColorFormat.DEFAULT_FORMAT => "0"
    | ColorFormat.BOLD => "1"
    | ColorFormat.DIM => "2"
    | ColorFormat.UNDERLINED => "3"
    | ColorFormat.BLINK => "5"
    | ColorFormat.REVERSE => "7"
    | ColorFormat.HIDDEN => "8"
  "\x1b[" ++ formatSet ++ ";" ++ fgColor ++ ";" ++ bgColor ++ "m" ++ content ++ "\x1b[0m"

/-- Model of `coloredListEntry`; the omitted arguments of `inColor` take their
defaults `DEFAULT_COLOR` and `DEFAULT_FORMAT`. -/
def coloredListEntry (entry : dirent) : String :=
  let formatted := entry.d_name
  let formatted :=
    if entry.d_type = DT_DIR then
      inColor formatted Color.BLUE Color.DEFAULT_COLOR ColorFormat.DEFAULT_FORMAT
    else if entry.d_type = DT_LNK then
      inColor formatted Color.RED Color.DEFAULT_COLOR ColorFormat.DEFAULT_FORMAT
    else if entry.d_type = DT_REG then
      inColor formatted Color.WHITE Color.DEFAULT_COLOR ColorFormat.DEFAULT_FORMAT
    else formatted
  if fileIsHidden entry then
    inColor entry.d_name Color.MAGENTA Color.DEFAULT_COLOR ColorFormat.DEFAULT_FORMAT
  else formatted

/-- The loop of `getListItems` over the entries of the directory. The result
is `none` when `string(offset, ' ')` throws `std::length_error`: `offset` is
the `int` that `40 - item.length()`, computed in `size_t`, is narrowed to, and
a negative `offset` becomes a count above `max_size()`. -/
def getListItemsLoop (w : World) (includeHidden includeSize : Bool) :
    List dirent → List String → Option (List String)
  | [], items => some items
  | entry :: more, items =>
    if includeHidden || entry.d_name.data.head? != some '.' then
      let item := coloredListEntry entry
      if includeSize then
        let offset := toInt ((40 - (item.length : Int)) % 2 ^ 64)
        if offset < 0 then none
        else
          let item := item ++ String.mk (List.replicate offset.toNat ' ') ++
            to_string (fileSize w entry)
          getListItemsLoop w includeHidden includeSize more (items ++ [item])
      else getListItemsLoop w includeHidden includeSize more (items ++ [item])
    else getListItemsLoop w includeHidden includeSize more items

/-- Model of `getListItems`. -/
def getListItems (w : World) (path : String) (includeHidden includeSize : Bool) :
    Option (List String) :=
  match w.opendir path with
  | some entries => getListItemsLoop w includeHidden includeSize entries []
  | none => some []

/-- The loop of `getListItemsRecursive` over the entries of one directory;
`recurse` is the recursive call. The loop is left by `break` when the nested
path does not fit `PATH_MAX`. -/
def getListItemsRecursiveLoop (recurse : String → List String → List String)
    (path : String) : List dirent → List String → List String
  | [], items => items
  | entry :: more, items =>
    let d_name := entry.d_name
    let items :=
      if entry.d_type ≠ DT_DIR then items ++ [path ++ "/" ++ coloredListEntry entry]
      else items
    if entry.d_type &&& DT_DIR ≠ 0 then
      if d_name ≠ ".." ∧ d_name ≠ "." then
        let path_length := path.length + 1 + d_name.length
        let items := items ++ [path ++ "/" ++ coloredListEntry entry]
        if path_length ≥ PATH_MAX then items
        else
          getListItemsRecursiveLoop recurse path more (recurse (path ++ "/" ++ d_name) items)
      else getListItemsRecursiveLoop recurse path more items
    else getListItemsRecursiveLoop recurse path more items

/-- Model of `getListItemsRecursive`, with a bound on the depth of the
recursion; a nested path grows with every level and the recursion stops at
`PATH_MAX`, so `PATH_MAX` levels are never exceeded. Neither `withHidden` nor
`withSize` is read by the code. -/
def getListItemsRecursive (w : World) :
    Nat → String → Bool → Bool → List String → List String
  | 0, _, _, _, items => items
  | depth + 1, path, withHidden, withSize, items =>
    match w.opendir path with
    | some entries =>
      getListItemsRecursiveLoop
        (fun nest items => getListItemsRecursive w depth nest withHidden withSize items)
        path entries items
    | none => items

/-- Model of the loop `while (ifs.peek() != EOF) { getline(ifs, line); ... }`
of `sendRequestedFile`: the lines read, with a bound on the iterations.
`getline` takes the characters before the next newline and removes the
newline from the stream. -/
def readLines : Nat → List Char → List String
  | 0, _ => []
  | n + 1, ifs =>
    if ifs.isEmpty then []
    else
      String.mk (ifs.takeWhile (fun ch => ch != '\n')) ::
        readLines n ((ifs.dropWhile (fun ch => ch != '\n')).tail)

/-! ## SocketServer.cpp -/

/-- The sentinel `DONE_MSG`. -/
def DONE_MSG : String := "\\done"

/-- The sentinel `GOOD_MSG`. -/
def GOOD_MSG : String := "\\good"

/-- The sentinel `BAD_MSG`. -/
def BAD_MSG : String := "\\bad"

/-- The sentinel `CANCEL_MSG`. -/
def CANCEL_MSG : String := "\\cancel"

/-- The loop of `sendMessage`. Each call `write(sock, buffer, BUFFER_SIZE)`
offers the buffer from its start; `writes` lists the values the successive
calls return, the number of bytes accepted, between 1 and `BUFFER_SIZE`, and
a call beyond the list accepts all that is offered. The result is what has
been put on the socket. -/
def sendMessageLoop (buffer : List Char) (BUFFER_SIZE : Nat) :
    List Nat → Nat → List Char → List Char
  | [], sent, socket =>
    if sent < BUFFER_SIZE then socket ++ buffer.take BUFFER_SIZE else socket
  | n :: writes, sent, socket =>
    if sent < BUFFER_SIZE then
      sendMessageLoop buffer BUFFER_SIZE writes (sent + n) (socket ++ buffer.take n)
    else socket

/-- Model of `SocketServer::sendMessage`: the bytes put on the socket. -/
def sendMessage (message : String) (writes : List Nat) : List Char :=
  let sanitized := message ++ "\n"
  let buffer := c_str sanitized
  let BUFFER_SIZE := buffer.length
  sendMessageLoop buffer BUFFER_SIZE writes 0 []

/-- What the server does on its sockets, in the order it does it. A call of
`sendMessage` is recorded with its arguments; `terminate` records the end of
the process by an exception nobody catches. -/
inductive Event where
  | sendMessage (sock : Int) (message : String)
  | receiveMessage (sock : Int)
  | getDataSocket (host : String) (port : Int)
  | close (sock : Int)
  | terminate
  deriving DecidableEq, Repr

/-- The state of the exchange with one client: what the server will read on
the control connection, the only socket it reads, and the events so far. An
entry of `incoming` is the memory from the first byte of the 1024-byte buffer
on, once `recv` has returned: the bytes received, at most 1024, behind them
the zeros `memset` left, and behind the buffer what happens to follow it, as
`bufferAfterRecv` builds it. The end of an entry stands for a NUL. -/
structure Session where
  incoming : List String
  events : List Event
  deriving DecidableEq, Repr

/-- The memory from the first byte of the buffer of `receiveMessage` on, after
`memset(buffer, 0, 1024)` and `recv(sock, buffer, 1024, 0)`: the bytes
received, the first 1024 at most of those the peer sent, the zeros left up to
the end of the buffer, and the bytes behind the buffer. -/
def bufferAfterRecv (sent behind : String) : String :=
  String.mk (sent.data.take 1024 ++
    List.replicate (1024 - (sent.data.take 1024).length) '\x00' ++ behind.data)

/-- How a function ends: it returns, or an exception leaves it; either way
with the session as it is at that point. -/
inductive Outcome where
  | returned (st : Session)
  | thrown (st : Session)
  deriving DecidableEq, Repr

/-- Record an event. -/
def Session.log (st : Session) (e : Event) : Session :=
  { st with events := st.events ++ [e] }

/-- Model of `SocketServer::receiveMessage`: the buffer is zeroed, filled by
`recv` and read as a C string by `string message = buffer`, that is up to the
first NUL. When `recv` fills the buffer to its last byte no NUL is left in it
and the string goes on with the bytes behind the buffer. -/
def receiveMessage (st : Session) (sock : Int) : String × Session :=
  match st.incoming with
  | [] => ("", { st with events := st.events ++ [Event.receiveMessage sock] })
  | buffer :: later =>
    (String.mk (c_str buffer),
      { incoming := later, events := st.events ++ [Event.receiveMessage sock] })

/-- The loop `for (auto i : items) sendMessage(sock, i)`. -/
def sendItems (st : Session) (sock : Int) : List String → Session
  | [] => st
  | i :: items => sendItems (st.log (Event.sendMessage sock i)) sock items

/-- Model of `SocketServer::sendDirectoryList`. -/
def sendDirectoryList (w : World) (st : Session) (sock : Int)
    (showHidden showSize showRecursive : Bool) : Outcome :=
  let items : Option (List String) :=
    if !showRecursive then getListItems w "." showHidden showSize
    else some (getListItemsRecursive w PATH_MAX "." showHidden showSize [])
  match items with
  | none => Outcome.thrown (st.log Event.terminate)
  | some items => Outcome.returned ((sendItems st sock items).log (Event.sendMessage sock DONE_MSG))

/-- Model of `std::string::find(pattern) != npos`. -/
def contains (content pattern : String) : Bool :=
  decide (pattern.data <:+: content.data)

/-- Model of `SocketServer::sendRequestedFile`. The file is opened twice, by
`canAccessFile` and for the reading; the world is the same both times. -/
def sendRequestedFile (w : World) (st : Session) (clientSock dataSock : Int)
    (parsedRequest : ParsedRequest) : Session :=
  let filename := parsedRequest.filename
  match w.ifstream filename with
  | some content =>
    let st := st.log (Event.sendMessage dataSock GOOD_MSG)
    let r := receiveMessage st clientSock
    let st :=
      if !contains r.1 CANCEL_MSG then
        sendItems r.2 dataSock (readLines content.data.length content.data)
      else r.2
    st.log (Event.sendMessage dataSock DONE_MSG)
  | none =>
    let st := st.log (Event.sendMessage dataSock BAD_MSG)
    let st := st.log
      (Event.sendMessage dataSock ("Response: Error - \"" ++ filename ++ "\" not found"))
    st.log (Event.sendMessage dataSock DONE_MSG)

/-- Model of `SocketServer::processDataResponse`; `getDataSocket` returns the
connected socket or ends the process, and the model follows the runs in which
it returns. -/
def processDataResponse (w : World) (st : Session) (parsedRequest : ParsedRequest)
    (clientHost : String) (clientSock : Int) : Outcome :=
  let st := (receiveMessage st clientSock).2
  let dataPort := parsedRequest.dataPort
  let dataSock := w.getDataSocket clientHost dataPort
  let st := st.log (Event.getDataSocket clientHost dataPort)
  let response : Outcome :=
    if parsedRequest.command == "-l" then
      sendDirectoryList w st dataSock false false false
    else if parsedRequest.command == "-la" then
      sendDirectoryList w st dataSock true false false
    else if parsedRequest.command == "-ll" then
      sendDirectoryList w st dataSock true true false
    else if parsedRequest.command == "-lr" then
      sendDirectoryList w st dataSock true true true
    else if parsedRequest.command == "-g" then
      Outcome.returned (sendRequestedFile w st clientSock dataSock parsedRequest)
    else Outcome.returned st
  match response with
  | Outcome.thrown st => Outcome.thrown st
  | Outcome.returned st => Outcome.returned (st.log (Event.close dataSock))

/-- The line `processClientRequest` prints about the request, from the
members of the object and before it tests the error flag; `none` when it
prints none. -/
def requestLog (parsedRequest : ParsedRequest) : Option String :=
  let cmd := parsedRequest.command
  if cmd == "-l" || cmd == "-la" || cmd == "-ll" || cmd == "-lr" then
    some ("List directory requested on port " ++ to_string parsedRequest.dataPort ++ ".")
  else if cmd == "-g" then
    some ("File \"" ++ parsedRequest.filename ++ "\" requested on port " ++
      to_string parsedRequest.dataPort ++ ".")
  else none

/-- Model of `SocketServer::processClientRequest`; `none` when the parser
reads `components` out of bounds. -/
def processClientRequest (w : World) (st : Session) (request : String) (clientSock : Int)
    (clientHost : String) : Option (Outcome) :=
  match ParsedRequest.create request (w.portFromSocket clientSock) with
  | none => none
  | some parsedRequest =>
    if parsedRequest.errorFlag then
      some (Outcome.returned (st.log (Event.sendMessage clientSock parsedRequest.errorMessage)))
    else
      let st := st.log (Event.sendMessage clientSock GOOD_MSG)
      some (processDataResponse w st parsedRequest clientHost clientSock)

/-- Model of `SocketServer::receiveClientRequest`: the request is the buffer
that `recv` filled, read as a C string, like the message of
`receiveMessage`. -/
def receiveClientRequest (w : World) (st : Session) (clientSock : Int) (clientHost : String) :
    Option (Outcome) :=
  let r := receiveMessage st clientSock
  processClientRequest w r.2 r.1 clientSock clientHost

/-! ## main.cpp -/

/-- Model of `atoi`: the `int` that `strtol` in base 10 converts to. -/
def atoi (nptr : String) : Int :=
  toInt (strtol (c_str nptr)).1

/-- Model of `isInputInt`: the result, the content of `value` afterwards and
the lines left on the stream. `getline` fails at the end of the stream. -/
def isInputInt (input : List String) (value : Int) : Bool × Int × List String :=
  match input with
  | [] => (false, value, [])
  | line :: later =>
    if !line.data.isEmpty then
      let r := strtol (c_str line)
      (r.2.isEmpty, toInt r.1, later)
    else (false, value, later)

/-- Model of `isValidInt`. -/
def isValidInt (input : List String) (value : Int) (min max : Int) :
    Bool × Int × List String :=
  let r := isInputInt input value
  (r.1 && decide (r.2.1 ≥ min) && decide (r.2.1 ≤ max), r.2.1, r.2.2)

/-- The loop `do { cout << prompt; } while (!isValidInt(cin, port, ...))` of
`getValidPort`, with a bound on the iterations: the port returned and the
number of prompts printed, `none` when the bound is reached. -/
def promptLoop : Nat → List String → Int → Nat → Option (Int × Nat)
  | 0, _, _, _ => none
  | n + 1, cin, port, prompts =>
    let r := isValidInt cin port 1024 65535
    if !r.1 then promptLoop n r.2.2 r.2.1 (prompts + 1)
    else some (r.2.1, prompts + 1)

/-- Model of `getValidPort(count, args)` reading the lines `cin`: the port
returned and the number of prompts printed. `args[1]` is read only when
`count` is 2. -/
def getValidPort (bound : Nat) (count : Int) (args : List String) (cin : List String) :
    Option (Int × Nat) :=
  let MIN_VALID_PORT : Int := 1024
  let MAX_VALID_PORT : Int := 65535
  let port : Int := -1
  if count == 2 then
    match args.get? 1 with
    | none => none
    | some arg =>
      let port := atoi arg
      if port ≥ MIN_VALID_PORT && port ≤ MAX_VALID_PORT then some (port, 0)
      else promptLoop bound cin port 0
  else promptLoop bound cin port 0

/-! ## Notions of the specification -/

/-- The four list commands. -/
def listCommands : List String := ["-l", "-la", "-ll", "-lr"]

/-- The five recognised commands. -/
def recognisedCommands : List String := ["-l", "-la", "-ll", "-lr", "-g"]

/-- A decimal numeral: a non-empty string of decimal digits. -/
def isDecimalNumeral (tok : String) : Bool :=
  !tok.data.isEmpty && tok.data.all Char.isDigit

/-- The value of a decimal numeral, its digits read in base ten. -/
def numeralValue (tok : String) : Nat :=
  Nat.ofDigits 10 (tok.data.reverse.map (fun d => d.toNat - 48))

/-- A base-10 integer written in full: an optional sign followed by a decimal
numeral and nothing else. -/
def isDecimalInteger (tok : String) : Bool :=
  match tok.data with
  | [] => false
  | c :: cs =>
    if c = '+' ∨ c = '-' then isDecimalNumeral (String.mk cs)
    else isDecimalNumeral tok

/-- A token list that passes the token-count and the command checks: a list
command followed by the port token, or `-g` followed by a file name and the
port token. `fname` is the file name the request carries, empty for a list
command. -/
def requestShape (toks : List String) (cmd fname tok : String) : Prop :=
  (toks = [cmd, tok] ∧ cmd ∈ listCommands ∧ fname = "") ∨
    (toks = [cmd, fname, tok] ∧ cmd = "-g")

/-- The lines of a file content: the content split at its newlines, a final
newline producing no extra empty line. -/
def linesOf (content : String) : List String :=
  let parts := content.data.splitOn '\n'
  (if parts.getLast? = some [] then parts.dropLast else parts).map String.mk

/-- The session an outcome ends in, whether the function returned or an
exception left it. -/
def finalSession (outcome : Outcome) : Session :=
  match outcome with
  | Outcome.returned st => st
  | Outcome.thrown st => st

/-- A directory whose only entry is a regular file with a name of 27
characters, of size 5. -/
def longNameWorld : World :=
  { opendir := fun path =>
      if path = "." then some [{ d_name := "abcdefghijklmnopqrstuvwxyz0", d_type := DT_REG }]
      else none
    stat := fun _ => some 5
    ifstream := fun _ => none
    portFromSocket := fun _ => 2021
    getDataSocket := fun _ _ => 7 }

/-- A directory with two regular files, `.profile` and `a`, of size 5. -/
def smallWorld : World :=
  { opendir := fun path =>
      if path = "." then
        some [{ d_name := ".profile", d_type := DT_REG }, { d_name := "a", d_type := DT_REG }]
      else none
    stat := fun _ => some 5
    ifstream := fun _ => none
    portFromSocket := fun _ => 2021
    getDataSocket := fun _ _ => 7 }

/-- The bytes that the calls of `sendMessage` recorded in a list of events put
on a socket when every `write` accepts all that is offered. -/
def wire (sock : Int) : List Event → List Char
  | [] => []
  | Event.sendMessage s message :: later =>
    (if s = sock then sendMessage message [] else []) ++ wire sock later
  | _ :: later => wire sock later

/-- A directory with the single file `data.bin`, whose first line holds a
NUL. -/
def nulWorld : World :=
  { opendir := fun path =>
      if path = "." then some [{ d_name := "data.bin", d_type := DT_REG }] else none
    stat := fun _ => some 6
    ifstream := fun name => if name = "data.bin" then some "a\x00b\nc\n" else none
    portFromSocket := fun _ => 2021
    getDataSocket := fun _ _ => 7 }

/-- A directory with the single file `notes.txt`, of two lines. -/
def notesWorld : World :=
  { opendir := fun path =>
      if path = "." then some [{ d_name := "notes.txt", d_type := DT_REG }] else none
    stat := fun _ => some 8
    ifstream := fun name => if name = "notes.txt" then some "one\ntwo\n" else none
    portFromSocket := fun _ => 2021
    getDataSocket := fun _ _ => 7 }

/-! ## Facts about `split` -/

theorem extractWord_eq_none_iff (iss : List Char) :
    extractWord iss = none ↔ iss.any (fun c => !isspace c) = false := by
  induction iss with
  | nil => simp [extractWord]
  | cons c cs ih =>
    by_cases hc : isspace c = true
    · simpa [extractWord, hc] using ih
    · simp [extractWord, hc]

theorem extractWord_some {iss : List Char} {word : String} {rest : List Char}
    (h : extractWord iss = some (word, rest)) :
    word.data ≠ [] ∧ (∀ c ∈ word.data, isspace c = false ∧ c ∈ iss) ∧
      rest.length < iss.length ∧ ∀ c ∈ rest, c ∈ iss := by
  unfold extractWord at h
  simp only at h
  split at h
  · exact absurd h (by simp)
  · rename_i hne
    simp only [Option.some.injEq, Prod.mk.injEq] at h
    obtain ⟨hw, hr⟩ := h
    subst hw hr
    have hsuf := List.dropWhile_suffix (l := iss) isspace
    have hpre := List.takeWhile_prefix (l := iss.dropWhile isspace) (fun c => !isspace c)
    have hsuf2 := List.dropWhile_suffix (l := iss.dropWhile isspace) (fun c => !isspace c)
    have hlen := congrArg List.length
      (List.takeWhile_append_dropWhile (fun c => !isspace c) (iss.dropWhile isspace))
    rw [List.length_append] at hlen
    have hpos : 0 < ((iss.dropWhile isspace).takeWhile (fun c => !isspace c)).length := by
      rcases hw : (iss.dropWhile isspace).takeWhile (fun c => !isspace c) with _ | ⟨a, l⟩
      · simp [hw] at hne
      · simp
    refine ⟨?_, ?_, ?_, ?_⟩
    · intro h0
      have h1 : (iss.dropWhile isspace).takeWhile (fun c => !isspace c) = [] := h0
      rw [h1] at hpos
      exact absurd hpos (by simp)
    · intro c hc
      refine ⟨?_, hsuf.subset (hpre.subset hc)⟩
      simpa using List.mem_takeWhile_imp hc
    · have := hsuf.length_le
      omega
    · intro c hc
      exact hsuf.subset (hsuf2.subset hc)

theorem splitLoop_acc (n : Nat) (iss : List Char) (words : List String) :
    splitLoop n iss words = words ++ splitLoop n iss [] := by
  induction n generalizing iss words with
  | zero => simp [splitLoop]
  | succ n ih =>
    unfold splitLoop
    cases h : extractWord iss with
    | none => simp
    | some wr =>
      obtain ⟨w, r⟩ := wr
      simp only
      rw [ih r (words ++ [w]), ih r ([] ++ [w])]
      simp

/-- The bound on the iterations of `split` is never reached: any larger
bound gives the same words. -/
theorem splitLoop_fuel (n m : Nat) (iss : List Char) (words : List String)
    (hn : iss.length ≤ n) (hm : iss.length ≤ m) :
    splitLoop n iss words = splitLoop m iss words := by
  induction n generalizing m iss words with
  | zero =>
    have : iss = [] := List.length_eq_zero.mp (Nat.le_zero.mp hn)
    subst this
    cases m <;> simp [splitLoop, extractWord]
  | succ n ih =>
    cases m with
    | zero =>
      have : iss = [] := List.length_eq_zero.mp (Nat.le_zero.mp hm)
      subst this
      simp [splitLoop, extractWord]
    | succ m =>
      unfold splitLoop
      cases h : extractWord iss with
      | none => rfl
      | some wr =>
        obtain ⟨w, r⟩ := wr
        have hlt := (extractWord_some h).2.2.1
        exact ih m r (words ++ [w]) (by omega) (by omega)

theorem splitLoop_mem (n : Nat) (iss : List Char) :
    ∀ t ∈ splitLoop n iss [],
      t.data ≠ [] ∧ ∀ c ∈ t.data, isspace c = false ∧ c ∈ iss := by
  induction n generalizing iss with
  | zero => simp [splitLoop]
  | succ n ih =>
    intro t ht
    unfold splitLoop at ht
    cases h : extractWord iss with
    | none => simp [h] at ht
    | some wr =>
      obtain ⟨w, r⟩ := wr
      simp only [h] at ht
      rw [splitLoop_acc] at ht
      obtain ⟨hw, hc, -, hr⟩ := extractWord_some h
      rcases List.mem_append.mp ht with h1 | h1
      · have : t = w := by simpa using h1
        subst this
        exact ⟨hw, hc⟩
      · obtain ⟨ht1, ht2⟩ := ih r t h1
        exact ⟨ht1, fun c hc0 => ⟨(ht2 c hc0).1, hr c (ht2 c hc0).2⟩⟩

/-- Every word of `split` is non-empty, free of white space and made of
characters of the input. -/
theorem split_mem {input : String} {t : String} (ht : t ∈ split input) :
    t.data ≠ [] ∧ ∀ c ∈ t.data, isspace c = false ∧ c ∈ input.data :=
  splitLoop_mem _ _ t ht

/-- The emptiness test of `parseRequest` passes exactly when `split` finds a
word. -/
theorem hasAnyValue_iff_split (input : String) :
    hasAnyValue input = true ↔ split input ≠ [] := by
  unfold hasAnyValue split
  rcases hd : input.data with _ | ⟨c, cs⟩
  · simp [splitLoop]
  · simp only [List.length_cons]
    unfold splitLoop
    cases h : extractWord (c :: cs) with
    | none =>
      have := (extractWord_eq_none_iff _).mp h
      simp [this]
    | some wr =>
      obtain ⟨w, r⟩ := wr
      have hne : ¬ (c :: cs).any (fun c => !isspace c) = false := by
        intro h0
        rw [(extractWord_eq_none_iff _).mpr h0] at h
        exact absurd h (by simp)
      simp only [List.nil_append]
      rw [splitLoop_acc]
      have hany : (c :: cs).any (fun c => !isspace c) = true := by
        cases hb : (c :: cs).any (fun c => !isspace c) with
        | false => exact absurd hb hne
        | true => rfl
      simp [hany]

/-! ## Facts about `strtol` and `isInt` -/

theorem isdigit_iff (c : Char) : isdigit c = true ↔ 48 ≤ c.toNat ∧ c.toNat ≤ 57 := by
  simp [isdigit, Char.le_def, Char.toNat, UInt32.le_def, BitVec.le_def, UInt32.toNat]

theorem isdigit_eq_isDigit (c : Char) : isdigit c = c.isDigit := by
  rw [Bool.eq_iff_iff, isdigit_iff]
  simp [Char.isDigit, Char.toNat, UInt32.le_def, BitVec.le_def, UInt32.toNat]

theorem isspace_iff (c : Char) :
    isspace c = true ↔
      c = ' ' ∨ c = '\t' ∨ c = '\n' ∨ c = '\x0b' ∨ c = '\x0c' ∨ c = '\r' := by
  simp [isspace]

theorem isdigit_not_isspace {c : Char} (h : isdigit c = true) : isspace c = false := by
  cases hs : isspace c with
  | false => rfl
  | true =>
    rcases (isspace_iff c).mp hs with rfl | rfl | rfl | rfl | rfl | rfl <;>
      exact absurd h (by decide)

theorem isdigit_ne_minus {c : Char} (h : isdigit c = true) : c ≠ '-' := by
  rintro rfl
  exact absurd h (by decide)

theorem isdigit_ne_plus {c : Char} (h : isdigit c = true) : c ≠ '+' := by
  rintro rfl
  exact absurd h (by decide)

theorem isdigit_ne_nul {c : Char} (h : isdigit c = true) : c ≠ '\x00' := by
  rintro rfl
  exact absurd h (by decide)

theorem foldl_digits (ds : List Char) (h : ∀ d ∈ ds, isdigit d = true) :
    ds.foldl (fun acc d => acc * 10 + digitValue d) 0 =
      ((Nat.ofDigits 10 (ds.reverse.map (fun d => d.toNat - 48)) : Nat) : Int) := by
  induction ds using List.reverseRecOn with
  | nil => simp
  | append_singleton l d ih =>
    have hd := (isdigit_iff d).mp (h d (by simp))
    rw [List.foldl_append, ih (fun x hx => h x (by simp [hx]))]
    simp only [List.foldl_cons, List.foldl_nil, List.reverse_append, List.reverse_cons,
      List.reverse_nil, List.nil_append, List.singleton_append, List.map_cons, Nat.ofDigits_cons]
    simp only [digitValue]
    have h0 : ('0'.toNat : Int) = 48 := by decide
    rw [h0]
    push_cast
    omega

theorem isDecimalNumeral_iff (tok : String) :
    isDecimalNumeral tok = true ↔ tok.data ≠ [] ∧ ∀ d ∈ tok.data, isdigit d = true := by
  simp [isDecimalNumeral, isdigit_eq_isDigit]

/-- On a non-empty string of digits `strtol` converts all of it. -/
theorem strtol_digits (ds : List Char) (hne : ds ≠ [])
    (h : ∀ d ∈ ds, isdigit d = true) :
    strtol ds =
      (max LONG_MIN (min LONG_MAX
        ((Nat.ofDigits 10 (ds.reverse.map (fun d => d.toNat - 48)) : Nat) : Int)), []) := by
  obtain ⟨d, ds1, rfl⟩ := List.exists_cons_of_ne_nil hne
  have hd := h d (by simp)
  have hsp := isdigit_not_isspace hd
  have htake : (d :: ds1).takeWhile isdigit = d :: ds1 :=
    List.takeWhile_eq_self_iff.mpr h
  have hdrop : (d :: ds1).dropWhile isdigit = [] :=
    List.dropWhile_eq_nil_iff.mpr h
  have hfold := foldl_digits (d :: ds1) h
  unfold strtol
  simp only [List.dropWhile_cons_of_neg (by simp [hsp] : ¬ isspace d = true), List.head?_cons]
  have hm : (some d == some '-') = false := by simpa using isdigit_ne_minus hd
  have hp : (some d == some '+') = false := by simpa using isdigit_ne_plus hd
  simp only [hm, hp, Bool.or_self, Bool.false_eq_true, if_false, htake, hdrop, hfold]
  simp

/-- On a decimal numeral that fits an `int`, `isInt` succeeds and stores the
value of the numeral. -/
theorem isInt_numeral (tok : String) (v : Int) (hnum : isDecimalNumeral tok = true)
    (hlt : numeralValue tok < 2 ^ 31) :
    isInt tok v = (true, (numeralValue tok : Int)) := by
  obtain ⟨hne, hdig⟩ := (isDecimalNumeral_iff tok).mp hnum
  have hval : hasAnyValue tok = true := by
    obtain ⟨d, ds1, hd⟩ := List.exists_cons_of_ne_nil hne
    unfold hasAnyValue
    rw [hd]
    have := isdigit_not_isspace (hdig d (by simp [hd]))
    simp [this]
  have hc : c_str tok = tok.data := by
    unfold c_str
    apply List.takeWhile_eq_self_iff.mpr
    intro d hd
    simpa using isdigit_ne_nul (hdig d hd)
  unfold isInt
  rw [hval, hc, strtol_digits tok.data hne hdig]
  unfold numeralValue at hlt ⊢
  generalize Nat.ofDigits 10 (tok.data.reverse.map (fun d => d.toNat - 48)) = n at hlt ⊢
  have h1 : max LONG_MIN (min LONG_MAX (n : Int)) = n := by
    unfold LONG_MIN LONG_MAX
    omega
  simp only [Bool.not_true, Bool.false_eq_true, if_false, h1, List.isEmpty_nil]
  have h2 : toInt (n : Int) = n := by
    unfold toInt
    omega
  rw [h2]

/-- The second component of `strtol` is empty only when the string, after an
optional sign, is a non-empty run of digits; stated for a string that does not
start with white space. -/
theorem strtol_rest_ne_nil (ch : Char) (cs : List Char) (hws : isspace ch = false)
    (h : isDecimalInteger (String.mk (ch :: cs)) = false) :
    (strtol (ch :: cs)).2 ≠ [] := by
  unfold strtol
  simp only [List.dropWhile_cons_of_neg (by simp [hws] : ¬ isspace ch = true), List.head?_cons]
  by_cases hsign : ch = '+' ∨ ch = '-'
  · have hs1 : ((some ch == some '-') || (some ch == some '+')) = true := by
      rcases hsign with rfl | rfl <;> decide
    simp only [hs1, if_true, List.tail_cons]
    have hnum : isDecimalNumeral (String.mk cs) = false := by
      simpa [isDecimalInteger, hsign] using h
    split
    · simp
    · rename_i hd
      intro hnil
      have hall : ∀ d ∈ cs, isdigit d = true := by
        simpa using List.dropWhile_eq_nil_iff.mp hnil
      have htake : cs.takeWhile isdigit = cs := List.takeWhile_eq_self_iff.mpr hall
      have hne : cs ≠ [] := by
        intro h0
        simp [h0] at hd
      have := (isDecimalNumeral_iff (String.mk cs)).mpr ⟨hne, hall⟩
      rw [this] at hnum
      exact absurd hnum (by simp)
  · have hs1 : ((some ch == some '-') || (some ch == some '+')) = false := by
      have h1 : ch ≠ '+' := fun h => hsign (Or.inl h)
      have h2 : ch ≠ '-' := fun h => hsign (Or.inr h)
      simp [h1, h2]
    simp only [hs1, Bool.false_eq_true, if_false]
    have hnum : isDecimalNumeral (String.mk (ch :: cs)) = false := by
      simpa [isDecimalInteger, hsign] using h
    split
    · simp
    · intro hnil
      have hall : ∀ d ∈ ch :: cs, isdigit d = true := by
        simpa using List.dropWhile_eq_nil_iff.mp hnil
      have := (isDecimalNumeral_iff (String.mk (ch :: cs))).mpr ⟨by simp, hall⟩
      rw [this] at hnum
      exact absurd hnum (by simp)

/-- On a token of `split` without NUL that is not a base-10 integer written in
full, `isInt` fails. -/
theorem isInt_not_integer (tok : String) (hne : tok.data ≠ [])
    (hws : ∀ ch ∈ tok.data, isspace ch = false) (hnul : ∀ ch ∈ tok.data, ch ≠ '\x00')
    (h : isDecimalInteger tok = false) :
    (isInt tok 0).1 = false := by
  obtain ⟨ch, cs, hd⟩ := List.exists_cons_of_ne_nil hne
  have hval : hasAnyValue tok = true := by
    unfold hasAnyValue
    rw [hd]
    simp [hws ch (by simp [hd])]
  have hc : c_str tok = tok.data := by
    unfold c_str
    apply List.takeWhile_eq_self_iff.mpr
    intro d hd1
    simpa using hnul d hd1
  have htok : tok = String.mk (ch :: cs) := by
    rw [← hd]
  unfold isInt
  rw [hval, hc, hd]
  simp only [Bool.not_true, Bool.false_eq_true, if_false]
  have := strtol_rest_ne_nil ch cs (hws ch (by simp [hd])) (by rw [← htok]; exact h)
  simpa using this

/-! ## The request parser -/

theorem mem_listCommands {cmd : String} (h : cmd ∈ listCommands) :
    cmd = "-l" ∨ cmd = "-la" ∨ cmd = "-ll" ∨ cmd = "-lr" := by
  simpa [listCommands] using h

/-- The object the constructor starts from: every member at its default. -/
theorem create_eq (request : String) (commandPort : Int) :
    ParsedRequest.create request commandPort =
      (ParsedRequest.parseRequest
        { commandPort := commandPort, components := [], command := "", filename := "",
          dataPort := -1, errorFlag := false, errorMessage := "" } request).map Prod.snd :=
  rfl

theorem parseRequest_empty (self : ParsedRequest) (request : String)
    (hv : hasAnyValue request = false) :
    self.parseRequest request = some (self.raiseErrorFlag
      "The FTP request does not appear to have any valid arguments.") := by
  unfold ParsedRequest.parseRequest
  rw [hv]
  rfl

theorem parseRequest_count_fails (self : ParsedRequest) (request : String)
    (hv : hasAnyValue request = true)
    (h1 : ({ self with components := split request } : ParsedRequest).componentCountIsValid.1
      = false) :
    self.parseRequest request = some (false,
      ({ self with components := split request } : ParsedRequest).componentCountIsValid.2) := by
  unfold ParsedRequest.parseRequest
  rw [hv]
  simp only [Bool.not_true, Bool.false_eq_true, if_false, h1, Bool.not_false, if_true]

theorem parseRequest_command (self : ParsedRequest) (request : String)
    (hv : hasAnyValue request = true)
    (h1 : ({ self with components := split request } : ParsedRequest).componentCountIsValid
      = (true, { self with components := split request })) :
    self.parseRequest request =
      match ({ self with components := split request } : ParsedRequest).commandIsValid with
      | none => none
      | some r2 =>
        if !r2.1 then some (false, r2.2)
        else
          match r2.2.dataPortIsValid with
          | none => none
          | some r3 =>
            if !r3.1 then some (false, r3.2)
            else r3.2.fileNameIsValid := by
  unfold ParsedRequest.parseRequest
  rw [hv]
  simp only [Bool.not_true, Bool.false_eq_true, if_false, h1]

theorem componentCountIsValid_eq (self : ParsedRequest) :
    self.componentCountIsValid =
      if self.components.length < 2 then
        self.raiseErrorFlag "Too few FTP request arguments were provided."
      else if self.components.length > 3 then
        self.raiseErrorFlag "Too many FTP request arguments were provided."
      else (true, self) :=
  rfl

theorem commandIsValid_eq (self : ParsedRequest) (t0 : String) (rest : List String)
    (hc : self.components = t0 :: rest) :
    self.commandIsValid = some (
      if (rest.length = 1 ∧ t0 ∈ listCommands) ∨ (rest.length = 2 ∧ t0 = "-g") then
        (true, { self with command := t0 })
      else if t0 ∉ recognisedCommands then
        self.raiseErrorFlag
          "An invalid command was provided. Please use \"-l\", \"-la\", \"-ll\", \"-lr\", or \"-g\"."
      else if rest.length = 1 ∨ rest.length = 2 then
        self.raiseErrorFlag ("Command mismatch: " ++ to_string ((rest.length + 1 : Nat) : Int) ++
          " arguments were provided with a command of " ++ t0 ++ ".")
      else self.raiseErrorFlag "Invalid component count: commandIsValid().") := by
  unfold ParsedRequest.commandIsValid ParsedRequest.component
  rw [hc]
  simp only [List.get?_cons_zero, List.length_cons]
  by_cases h1 : rest.length = 1 <;> by_cases h2 : rest.length = 2 <;>
    by_cases a : t0 = "-l" <;> by_cases b : t0 = "-la" <;> by_cases d : t0 = "-ll" <;>
    by_cases e : t0 = "-lr" <;> by_cases g : t0 = "-g" <;>
    simp [h1, h2, a, b, d, e, g, listCommands, recognisedCommands]

theorem dataPortIsValid_eq (self : ParsedRequest) (front : List String) (tok : String)
    (hc : self.components = front ++ [tok]) (hlen : front.length < 3) :
    self.dataPortIsValid = some (
      if (isInt tok 0).1 = false then
        self.raiseErrorFlag
          "Non-numeric data port argument. Please provide a numeric port in the range: 1024..65535"
      else if (isInt tok 0).2 < 1024 ∨ 65535 < (isInt tok 0).2 then
        self.raiseErrorFlag
          "Invalid data port argument. Please provide a numeric port in the range: 1024..65535"
      else if (isInt tok 0).2 = self.commandPort then
        self.raiseErrorFlag
          "Invalid data port argument. The data port should not be the same as the command port."
      else (true, { self with dataPort := (isInt tok 0).2 })) := by
  have hidx : (self.components.length + 2 ^ 64 - 1) % 2 ^ 64 = front.length := by
    rw [hc, List.length_append, List.length_singleton]
    omega
  have hget : self.component ((self.components.length + 2 ^ 64 - 1) % 2 ^ 64) = some tok := by
    rw [hidx]
    unfold ParsedRequest.component
    rw [hc]
    simp
  have hm1 : "Non-numeric data port argument. Please provide a numeric port in the range: " ++
      to_string 1024 ++ ".." ++ to_string 65535 =
      "Non-numeric data port argument. Please provide a numeric port in the range: 1024..65535" := by
    decide
  have hm2 : "Invalid data port argument. Please provide a numeric port in the range: " ++
      to_string 1024 ++ ".." ++ to_string 65535 =
      "Invalid data port argument. Please provide a numeric port in the range: 1024..65535" := by
    decide
  unfold ParsedRequest.dataPortIsValid
  simp only [hget, hm1, hm2]
  generalize isInt tok 0 = r
  obtain ⟨b, d⟩ := r
  cases b
  · simp
  · by_cases h2 : d < 1024 ∨ 65535 < d
    · rcases h2 with h2 | h2 <;> simp [h2]
    · have h3 : ¬ d < 1024 := fun h => h2 (Or.inl h)
      have h4 : ¬ 65535 < d := fun h => h2 (Or.inr h)
      by_cases h5 : d = self.commandPort
      · subst h5
        simp [h3, h4]
      · simp [h3, h4, h5]

theorem fileNameIsValid_get (self : ParsedRequest) (t0 t1 : String) (rest : List String)
    (hc : self.components = t0 :: t1 :: rest) (hcmd : self.command = "-g")
    (hv : hasAnyValue t1 = true) :
    self.fileNameIsValid = some (true, { self with filename := t1 }) := by
  unfold ParsedRequest.fileNameIsValid ParsedRequest.component
  rw [hc, hcmd]
  simp [hv]

theorem fileNameIsValid_list (self : ParsedRequest) (hcmd : self.command ≠ "-g") :
    self.fileNameIsValid = some (true, self) := by
  unfold ParsedRequest.fileNameIsValid
  simp [hcmd]

/-- Every word of `split` passes the emptiness test. -/
theorem hasAnyValue_of_mem_split {input t : String} (ht : t ∈ split input) :
    hasAnyValue t = true := by
  obtain ⟨h1, h2⟩ := split_mem ht
  obtain ⟨d, ds1, hd⟩ := List.exists_cons_of_ne_nil h1
  unfold hasAnyValue
  rw [hd]
  have := (h2 d (by simp [hd])).1
  simp [this]

/-! ## The outcome of the constructor, case by case -/

theorem create_no_tokens (line : String) (c : Int) (hs : split line = []) :
    ParsedRequest.create line c = some
      { commandPort := c, components := [], command := "", filename := "", dataPort := -1,
        errorFlag := true,
        errorMessage := "Error: The FTP request does not appear to have any valid arguments." } := by
  have hv : hasAnyValue line = false := by
    cases h : hasAnyValue line with
    | false => rfl
    | true => exact absurd hs ((hasAnyValue_iff_split line).mp h)
  rw [create_eq, parseRequest_empty _ _ hv]
  rfl

theorem create_one_token (line : String) (c : Int) (t : String) (hs : split line = [t]) :
    ParsedRequest.create line c = some
      { commandPort := c, components := [t], command := "", filename := "", dataPort := -1,
        errorFlag := true,
        errorMessage := "Error: Too few FTP request arguments were provided." } := by
  have hv : hasAnyValue line = true := (hasAnyValue_iff_split line).mpr (by simp [hs])
  rw [create_eq, parseRequest_count_fails _ _ hv (by rw [componentCountIsValid_eq, hs]; rfl),
    componentCountIsValid_eq, hs]
  rfl

theorem create_many_tokens (line : String) (c : Int) (hs : 3 < (split line).length) :
    ParsedRequest.create line c = some
      { commandPort := c, components := split line, command := "", filename := "",
        dataPort := -1, errorFlag := true,
        errorMessage := "Error: Too many FTP request arguments were provided." } := by
  have hv : hasAnyValue line = true :=
    (hasAnyValue_iff_split line).mpr (by intro h; rw [h] at hs; simp at hs)
  have h2 : ¬ (split line).length < 2 := by omega
  rw [create_eq, parseRequest_count_fails _ _ hv
    (by rw [componentCountIsValid_eq]; simp only [h2, hs, gt_iff_lt, if_false, if_true]; rfl),
    componentCountIsValid_eq]
  simp only [h2, hs, gt_iff_lt, if_false, if_true]
  rfl

theorem parseRequest_checked (self : ParsedRequest) (request : String) (t0 : String)
    (rest : List String) (hs : split request = t0 :: rest)
    (hlen : rest.length = 1 ∨ rest.length = 2) :
    self.parseRequest request =
      match ({ self with components := split request } : ParsedRequest).commandIsValid with
      | none => none
      | some r2 =>
        if !r2.1 then some (false, r2.2)
        else
          match r2.2.dataPortIsValid with
          | none => none
          | some r3 =>
            if !r3.1 then some (false, r3.2)
            else r3.2.fileNameIsValid := by
  have hv : hasAnyValue request = true := (hasAnyValue_iff_split request).mpr (by simp [hs])
  apply parseRequest_command _ _ hv
  rw [componentCountIsValid_eq]
  have h2 : ¬ (split request).length < 2 := by
    rw [hs, List.length_cons]
    omega
  have h3 : ¬ (split request).length > 3 := by
    rw [hs, List.length_cons]
    omega
  simp only [h2, h3, if_false]

theorem create_unknown (line : String) (c : Int) (t0 : String) (rest : List String)
    (hs : split line = t0 :: rest) (hlen : rest.length = 1 ∨ rest.length = 2)
    (hcmd : t0 ∉ recognisedCommands) :
    ParsedRequest.create line c = some
      { commandPort := c, components := t0 :: rest, command := "", filename := "",
        dataPort := -1, errorFlag := true,
        errorMessage := "Error: An invalid command was provided. Please use \"-l\", \"-la\", \"-ll\", \"-lr\", or \"-g\"." } := by
  have hnot : ¬ ((rest.length = 1 ∧ t0 ∈ listCommands) ∨ (rest.length = 2 ∧ t0 = "-g")) := by
    rintro (⟨-, h⟩ | ⟨-, h⟩)
    · exact hcmd (by
        rcases mem_listCommands h with rfl | rfl | rfl | rfl <;> simp [recognisedCommands])
    · exact hcmd (by simp [h, recognisedCommands])
  rw [create_eq, parseRequest_checked _ _ t0 rest hs hlen,
    commandIsValid_eq _ t0 rest (by simpa using hs)]
  simp only [hnot, hcmd, if_false, not_false_eq_true, if_true, hs]
  rfl

theorem create_mismatch (line : String) (c : Int) (t0 : String) (rest : List String)
    (hs : split line = t0 :: rest)
    (hlen : (rest.length = 2 ∧ t0 ∈ listCommands) ∨ (rest.length = 1 ∧ t0 = "-g")) :
    ParsedRequest.create line c = some
      { commandPort := c, components := t0 :: rest, command := "", filename := "",
        dataPort := -1, errorFlag := true,
        errorMessage := "Error: Command mismatch: " ++ to_string ((rest.length + 1 : Nat) : Int) ++
          " arguments were provided with a command of " ++ t0 ++ "." } := by
  have hl : rest.length = 1 ∨ rest.length = 2 := by
    rcases hlen with ⟨h, -⟩ | ⟨h, -⟩
    · exact Or.inr h
    · exact Or.inl h
  have hrec : ¬ t0 ∉ recognisedCommands := by
    rw [not_not]
    rcases hlen with ⟨-, h⟩ | ⟨-, h⟩
    · rcases mem_listCommands h with rfl | rfl | rfl | rfl <;> simp [recognisedCommands]
    · simp [h, recognisedCommands]
  have hnot : ¬ ((rest.length = 1 ∧ t0 ∈ listCommands) ∨ (rest.length = 2 ∧ t0 = "-g")) := by
    rcases hlen with ⟨h1, h⟩ | ⟨h1, h⟩
    · rintro (⟨h2, -⟩ | ⟨-, h3⟩)
      · omega
      · subst h3
        exact absurd h (by decide)
    · rintro (⟨-, h3⟩ | ⟨h2, -⟩)
      · subst h
        exact absurd h3 (by decide)
      · omega
  rw [create_eq, parseRequest_checked _ _ t0 rest hs hl,
    commandIsValid_eq _ t0 rest (by simpa using hs)]
  simp only [hnot, hrec, hl, if_false, if_true, hs]
  have hmsg : ∀ x : String,
      "Error: " ++ ("Command mismatch: " ++ x) = "Error: Command mismatch: " ++ x := by
    intro x
    rw [← String.append_assoc]
    rfl
  simp [ParsedRequest.raiseErrorFlag, String.append_assoc, hmsg]

theorem listCommands_ne_get {cmd : String} (h : cmd ∈ listCommands) : cmd ≠ "-g" := by
  rcases mem_listCommands h with rfl | rfl | rfl | rfl <;> decide

/-- The outcome for a line that passes the count and the command checks,
decided by `isInt` on the port token. -/
theorem create_port (line : String) (c : Int) (cmd fname tok : String)
    (hshape : requestShape (split line) cmd fname tok) :
    ParsedRequest.create line c = some (
      if (isInt tok 0).1 = false then
        { commandPort := c, components := split line, command := cmd, filename := "",
          dataPort := -1, errorFlag := true,
          errorMessage := "Error: Non-numeric data port argument. Please provide a numeric port in the range: 1024..65535" }
      else if (isInt tok 0).2 < 1024 ∨ 65535 < (isInt tok 0).2 then
        { commandPort := c, components := split line, command := cmd, filename := "",
          dataPort := -1, errorFlag := true,
          errorMessage := "Error: Invalid data port argument. Please provide a numeric port in the range: 1024..65535" }
      else if (isInt tok 0).2 = c then
        { commandPort := c, components := split line, command := cmd, filename := "",
          dataPort := -1, errorFlag := true,
          errorMessage := "Error: Invalid data port argument. The data port should not be the same as the command port." }
      else
        { commandPort := c, components := split line, command := cmd, filename := fname,
          dataPort := (isInt tok 0).2, errorFlag := false, errorMessage := "" }) := by
  rcases hshape with ⟨hs, hcmd, hf⟩ | ⟨hs, hcmd⟩
  · subst hf
    have hvalid : (([tok] : List String).length = 1 ∧ cmd ∈ listCommands) ∨
        (([tok] : List String).length = 2 ∧ cmd = "-g") := Or.inl ⟨rfl, hcmd⟩
    rw [create_eq, parseRequest_checked _ _ cmd [tok] hs (Or.inl rfl),
      commandIsValid_eq _ cmd [tok] (by simpa using hs), if_pos hvalid]
    simp only [Bool.not_true, Bool.false_eq_true, if_false]
    rw [dataPortIsValid_eq _ [cmd] tok (by simpa using hs) (by simp)]
    generalize isInt tok 0 = r
    obtain ⟨b, d⟩ := r
    cases b
    · simp only [if_true, hs]
      rfl
    · by_cases h2 : d < 1024 ∨ 65535 < d
      · simp only [h2, if_true, if_false, hs, Bool.true_eq_false]
        rfl
      · by_cases h3 : d = c
        · simp only [h2, if_true, if_false, hs, Bool.true_eq_false]
          rw [if_pos h3, if_pos h3]
          rfl
        · simp only [h2, h3, if_true, if_false, hs, Bool.not_true, Bool.false_eq_true,
            Bool.true_eq_false]
          rw [fileNameIsValid_list _ (listCommands_ne_get hcmd)]
          rfl
  · subst hcmd
    have hvalid : (([fname, tok] : List String).length = 1 ∧ "-g" ∈ listCommands) ∨
        (([fname, tok] : List String).length = 2 ∧ "-g" = "-g") := Or.inr ⟨rfl, rfl⟩
    have hfile : hasAnyValue fname = true :=
      hasAnyValue_of_mem_split (show fname ∈ split line by simp [hs])
    rw [create_eq, parseRequest_checked _ _ "-g" [fname, tok] hs (Or.inr rfl),
      commandIsValid_eq _ "-g" [fname, tok] (by simpa using hs), if_pos hvalid]
    simp only [Bool.not_true, Bool.false_eq_true, if_false]
    rw [dataPortIsValid_eq _ ["-g", fname] tok (by simpa using hs) (by simp)]
    generalize isInt tok 0 = r
    obtain ⟨b, d⟩ := r
    cases b
    · simp only [if_true, hs]
      rfl
    · by_cases h2 : d < 1024 ∨ 65535 < d
      · simp only [h2, if_true, if_false, hs, Bool.true_eq_false]
        rfl
      · by_cases h3 : d = c
        · simp only [h2, if_true, if_false, hs, Bool.true_eq_false]
          rw [if_pos h3, if_pos h3]
          rfl
        · simp only [h2, h3, if_true, if_false, hs, Bool.not_true, Bool.false_eq_true,
            Bool.true_eq_false]
          rw [fileNameIsValid_get _ "-g" fname [tok] (by simp [hs]) rfl hfile]
          rfl

/-- The six ways a token list can fare in the count and command checks. -/
theorem tokens_cases (toks : List String) :
    toks = [] ∨ (∃ t, toks = [t]) ∨ 3 < toks.length ∨
      (∃ t0 rest, toks = t0 :: rest ∧ (rest.length = 1 ∨ rest.length = 2) ∧
        t0 ∉ recognisedCommands) ∨
      (∃ t0 rest, toks = t0 :: rest ∧
        ((rest.length = 2 ∧ t0 ∈ listCommands) ∨ (rest.length = 1 ∧ t0 = "-g"))) ∨
      (∃ cmd fname tok, requestShape toks cmd fname tok) := by
  rcases toks with _ | ⟨t0, _ | ⟨t1, _ | ⟨t2, _ | ⟨t3, rest⟩⟩⟩⟩
  · exact Or.inl rfl
  · exact Or.inr (Or.inl ⟨t0, rfl⟩)
  · by_cases hl : t0 ∈ listCommands
    · exact Or.inr (Or.inr (Or.inr (Or.inr (Or.inr ⟨t0, "", t1, Or.inl ⟨rfl, hl, rfl⟩⟩))))
    · by_cases hg : t0 = "-g"
      · exact Or.inr (Or.inr (Or.inr (Or.inr (Or.inl ⟨t0, [t1], rfl, Or.inr ⟨rfl, hg⟩⟩))))
      · refine Or.inr (Or.inr (Or.inr (Or.inl ⟨t0, [t1], rfl, Or.inl rfl, ?_⟩)))
        intro hmem
        simp only [recognisedCommands, List.mem_cons, List.mem_singleton, List.not_mem_nil,
          or_false] at hmem
        simp only [listCommands, List.mem_cons, List.mem_singleton, List.not_mem_nil,
          or_false] at hl
        tauto
  · by_cases hg : t0 = "-g"
    · exact Or.inr (Or.inr (Or.inr (Or.inr (Or.inr ⟨t0, t1, t2, Or.inr ⟨rfl, hg⟩⟩))))
    · by_cases hl : t0 ∈ listCommands
      · exact Or.inr (Or.inr (Or.inr (Or.inr (Or.inl ⟨t0, [t1, t2], rfl, Or.inl ⟨rfl, hl⟩⟩))))
      · refine Or.inr (Or.inr (Or.inr (Or.inl ⟨t0, [t1, t2], rfl, Or.inr rfl, ?_⟩)))
        intro hmem
        simp only [recognisedCommands, List.mem_cons, List.mem_singleton, List.not_mem_nil,
          or_false] at hmem
        simp only [listCommands, List.mem_cons, List.mem_singleton, List.not_mem_nil,
          or_false] at hl
        tauto
  · exact Or.inr (Or.inr (Or.inl (by simp)))

/-- The file name of a request shape is non-empty exactly for `-g`, when the
tokens come from `split`. -/
theorem requestShape_fname {line cmd fname tok : String}
    (h : requestShape (split line) cmd fname tok) : fname ≠ "" ↔ cmd = "-g" := by
  rcases h with ⟨-, hcmd, hf⟩ | ⟨hs, hcmd⟩
  · subst hf
    simp [listCommands_ne_get hcmd]
  · have hmem : fname ∈ split line := by simp [hs]
    have hne := (split_mem hmem).1
    simp only [hcmd, iff_true]
    intro h0
    rw [h0] at hne
    exact hne rfl

theorem requestShape_cmd {toks : List String} {cmd fname tok : String}
    (h : requestShape toks cmd fname tok) : cmd ∈ recognisedCommands := by
  rcases h with ⟨-, hcmd, -⟩ | ⟨-, hcmd⟩
  · rcases mem_listCommands hcmd with rfl | rfl | rfl | rfl <;> simp [recognisedCommands]
  · simp [hcmd, recognisedCommands]

theorem requestShape_cons {toks : List String} {cmd fname tok : String}
    (h : requestShape toks cmd fname tok) :
    ∃ rest, toks = cmd :: rest ∧
      ((rest.length = 1 ∧ cmd ∈ listCommands) ∨ (rest.length = 2 ∧ cmd = "-g")) := by
  rcases h with ⟨hs, hcmd, -⟩ | ⟨hs, hcmd⟩
  · exact ⟨[tok], hs, Or.inl ⟨rfl, hcmd⟩⟩
  · exact ⟨[fname, tok], hs, Or.inr ⟨rfl, hcmd⟩⟩

/-- A check that fails returns `false` with the flag up; a check that passes
returns `true` and leaves the flag as it was. -/
theorem raiseErrorFlag_flag (self : ParsedRequest) (message : String) :
    (self.raiseErrorFlag message).1 = !(self.raiseErrorFlag message).2.errorFlag :=
  rfl

theorem componentCountIsValid_flag (self : ParsedRequest) (h0 : self.errorFlag = false) :
    self.componentCountIsValid.1 = !self.componentCountIsValid.2.errorFlag := by
  rw [componentCountIsValid_eq]
  split_ifs
  · rfl
  · rfl
  · simp [h0]

theorem commandIsValid_flag (self : ParsedRequest) (h0 : self.errorFlag = false)
    (res : Bool × ParsedRequest) (h : self.commandIsValid = some res) :
    res.1 = !res.2.errorFlag := by
  unfold ParsedRequest.commandIsValid at h
  split at h
  · exact absurd h (by simp)
  · simp only at h
    split_ifs at h <;> cases h <;> simp [ParsedRequest.raiseErrorFlag, h0]

theorem dataPortIsValid_flag (self : ParsedRequest) (h0 : self.errorFlag = false)
    (res : Bool × ParsedRequest) (h : self.dataPortIsValid = some res) :
    res.1 = !res.2.errorFlag := by
  unfold ParsedRequest.dataPortIsValid at h
  dsimp only at h
  split at h
  · exact absurd h (by simp)
  · split_ifs at h <;> cases h <;> simp [ParsedRequest.raiseErrorFlag, h0]

theorem fileNameIsValid_flag (self : ParsedRequest) (h0 : self.errorFlag = false)
    (res : Bool × ParsedRequest) (h : self.fileNameIsValid = some res) :
    res.1 = !res.2.errorFlag := by
  unfold ParsedRequest.fileNameIsValid at h
  split_ifs at h
  · split at h
    · exact absurd h (by simp)
    · split_ifs at h <;> cases h <;> simp [ParsedRequest.raiseErrorFlag, h0]
  · cases h
    simp [h0]

/-- The value `parseRequest` returns is the negation of the error flag it
leaves, when the flag was down before. -/
theorem parseRequest_flag (self : ParsedRequest) (request : String)
    (h0 : self.errorFlag = false) (res : Bool × ParsedRequest)
    (h : self.parseRequest request = some res) :
    res.1 = !res.2.errorFlag := by
  unfold ParsedRequest.parseRequest at h
  split_ifs at h with hv
  · cases h
    rfl
  · simp only at h
    have hc := componentCountIsValid_flag { self with components := split request } h0
    split_ifs at h with h1
    · cases h
      simp only [Bool.not_eq_true'] at h1
      rw [h1] at hc
      simp only
      rw [hc]
    · have hf1 : ({ self with components := split request } :
          ParsedRequest).componentCountIsValid.2.errorFlag = false := by
        simp only [Bool.not_eq_true', Bool.not_eq_false] at h1
        rw [h1] at hc
        simpa using hc.symm
      split at h
      · exact absurd h (by simp)
      · rename_i r2 hr2
        have hc2 := commandIsValid_flag _ hf1 r2 hr2
        split_ifs at h with h2
        · cases h
          simp only [Bool.not_eq_true'] at h2
          rw [h2] at hc2
          simp only
          rw [hc2]
        · have hf2 : r2.2.errorFlag = false := by
            simp only [Bool.not_eq_true', Bool.not_eq_false] at h2
            rw [h2] at hc2
            simpa using hc2.symm
          split at h
          · exact absurd h (by simp)
          · rename_i r3 hr3
            have hc3 := dataPortIsValid_flag _ hf2 r3 hr3
            split_ifs at h with h3
            · cases h
              simp only [Bool.not_eq_true'] at h3
              rw [h3] at hc3
              simp only
              rw [hc3]
            · have hf3 : r3.2.errorFlag = false := by
                simp only [Bool.not_eq_true', Bool.not_eq_false] at h3
                rw [h3] at hc3
                simpa using hc3.symm
              exact fileNameIsValid_flag _ hf3 res h

/-- The constructor always yields an object: no access of `components` is
out of bounds. -/
theorem create_ok_total (line : String) (c : Int) :
    ∃ r, ParsedRequest.create line c = some r := by
  rcases tokens_cases (split line) with h | ⟨t, h⟩ | h | ⟨t0, rest, h, hl, hc⟩ |
      ⟨t0, rest, h, hl⟩ | ⟨cmd, fname, tok, h⟩
  · exact ⟨_, create_no_tokens line c h⟩
  · exact ⟨_, create_one_token line c t h⟩
  · exact ⟨_, create_many_tokens line c h⟩
  · exact ⟨_, create_unknown line c t0 rest h hl hc⟩
  · exact ⟨_, create_mismatch line c t0 rest h hl⟩
  · exact ⟨_, create_port line c cmd fname tok h⟩

/-! ## The claims on the request parser -/

/-- C1: a line of two tokens, a list command and a decimal numeral with value
`p` in `[1024, 65535]` other than the control port, or of three tokens, `-g`,
a file name and such a numeral, is parsed without error: the flag is down, the
message empty, `command` is the first token, `dataPort` is `p`, and `filename`
is the second token for `-g` and empty for a list command. -/
theorem create_valid (line : String) (c : Int) :
    (∀ cmd tok : String, split line = [cmd, tok] → cmd ∈ listCommands →
      isDecimalNumeral tok = true → 1024 ≤ numeralValue tok → numeralValue tok ≤ 65535 →
      (numeralValue tok : Int) ≠ c →
      ParsedRequest.create line c = some
        { commandPort := c, components := [cmd, tok], command := cmd, filename := "",
          dataPort := numeralValue tok, errorFlag := false, errorMessage := "" }) ∧
    (∀ file tok : String, split line = ["-g", file, tok] →
      isDecimalNumeral tok = true → 1024 ≤ numeralValue tok → numeralValue tok ≤ 65535 →
      (numeralValue tok : Int) ≠ c →
      ParsedRequest.create line c = some
        { commandPort := c, components := ["-g", file, tok], command := "-g", filename := file,
          dataPort := numeralValue tok, errorFlag := false, errorMessage := "" }) := by
  constructor
  · intro cmd tok hs hcmd hnum hlo hhi hne
    have hi := isInt_numeral tok 0 hnum (by omega)
    have h2 : ¬ ((numeralValue tok : Int) < 1024 ∨ 65535 < (numeralValue tok : Int)) := by omega
    rw [create_port line c cmd "" tok (Or.inl ⟨hs, hcmd, rfl⟩), hi]
    simp only [Bool.true_eq_false, if_false, h2, hne, hs]
  · intro file tok hs hnum hlo hhi hne
    have hi := isInt_numeral tok 0 hnum (by omega)
    have h2 : ¬ ((numeralValue tok : Int) < 1024 ∨ 65535 < (numeralValue tok : Int)) := by omega
    rw [create_port line c "-g" file tok (Or.inr ⟨hs, rfl⟩), hi]
    simp only [Bool.true_eq_false, if_false, h2, hne, hs]

/-- C1 at the lines `-l 2000` and `-g abc 2000` with control port 2021. -/
theorem create_valid_witness :
    ParsedRequest.create "-l 2000" 2021 = some
        { commandPort := 2021, components := ["-l", "2000"], command := "-l", filename := "",
          dataPort := 2000, errorFlag := false, errorMessage := "" } ∧
      ParsedRequest.create "-g abc 2000" 2021 = some
        { commandPort := 2021, components := ["-g", "abc", "2000"], command := "-g",
          filename := "abc", dataPort := 2000, errorFlag := false, errorMessage := "" } :=
  ⟨(create_valid "-l 2000" 2021).1 "-l" "2000" (by decide) (by decide) (by decide)
      (by decide) (by decide) (by decide),
    (create_valid "-g abc 2000" 2021).2 "abc" "2000" (by decide) (by decide) (by decide)
      (by decide) (by decide)⟩

/-- C2: the constructor always yields an object, and when its error flag is
down the request is fully valid: `command` is one of the five recognised
commands, `dataPort` lies in `[1024, 65535]` and differs from the control
port, and `filename` is non-empty exactly when `command` is `-g`. -/
theorem create_ok_request_valid (line : String) (c : Int) :
    (∃ r, ParsedRequest.create line c = some r) ∧
      ∀ r, ParsedRequest.create line c = some r → r.errorFlag = false →
        r.command ∈ recognisedCommands ∧ 1024 ≤ r.dataPort ∧ r.dataPort ≤ 65535 ∧
          r.dataPort ≠ c ∧ (r.filename ≠ "" ↔ r.command = "-g") := by
  rcases tokens_cases (split line) with h | ⟨t, h⟩ | h | ⟨t0, rest, h, hl, hc⟩ |
      ⟨t0, rest, h, hl⟩ | ⟨cmd, fname, tok, h⟩
  · refine ⟨⟨_, create_no_tokens line c h⟩, ?_⟩
    intro r hr hflag
    rw [create_no_tokens line c h] at hr
    cases hr
    exact absurd hflag (by simp)
  · refine ⟨⟨_, create_one_token line c t h⟩, ?_⟩
    intro r hr hflag
    rw [create_one_token line c t h] at hr
    cases hr
    exact absurd hflag (by simp)
  · refine ⟨⟨_, create_many_tokens line c h⟩, ?_⟩
    intro r hr hflag
    rw [create_many_tokens line c h] at hr
    cases hr
    exact absurd hflag (by simp)
  · refine ⟨⟨_, create_unknown line c t0 rest h hl hc⟩, ?_⟩
    intro r hr hflag
    rw [create_unknown line c t0 rest h hl hc] at hr
    cases hr
    exact absurd hflag (by simp)
  · refine ⟨⟨_, create_mismatch line c t0 rest h hl⟩, ?_⟩
    intro r hr hflag
    rw [create_mismatch line c t0 rest h hl] at hr
    cases hr
    exact absurd hflag (by simp)
  · refine ⟨⟨_, create_port line c cmd fname tok h⟩, ?_⟩
    intro r hr hflag
    rw [create_port line c cmd fname tok h] at hr
    split_ifs at hr with h1 h2 h3
    · cases hr
      exact absurd hflag (by simp)
    · cases hr
      exact absurd hflag (by simp)
    · cases hr
      exact absurd hflag (by simp)
    · cases hr
      refine ⟨requestShape_cmd h, ?_, ?_, h3, requestShape_fname h⟩
      · simp only
        omega
      · simp only
        omega

/-- C2 at the line `-g abc 2000` with control port 2021. -/
theorem create_ok_request_valid_witness :
    "-g" ∈ recognisedCommands ∧ (1024 : Int) ≤ 2000 ∧ (2000 : Int) ≤ 65535 ∧
      (2000 : Int) ≠ 2021 ∧ ("abc" ≠ "" ↔ "-g" = "-g") :=
  (create_ok_request_valid "-g abc 2000" 2021).2
    { commandPort := 2021, components := ["-g", "abc", "2000"], command := "-g",
      filename := "abc", dataPort := 2000, errorFlag := false, errorMessage := "" }
    (by decide) rfl

/-- C3, as stated, fails on the empty line: it has fewer than two tokens, yet
the error is not the too-few-arguments error; the emptiness test that precedes
`split` in `parseRequest` reports its own message. -/
theorem empty_line_not_too_few :
    (split "").length < 2 ∧
      ParsedRequest.create "" 2021 = some
        { commandPort := 2021, components := [], command := "", filename := "", dataPort := -1,
          errorFlag := true,
          errorMessage := "Error: The FTP request does not appear to have any valid arguments." } ∧
      (ParsedRequest.create "" 2021).map ParsedRequest.errorMessage ≠
        some "Error: Too few FTP request arguments were provided." := by
  decide

/-- C3, amended: a line of exactly one token fails with the too-few-arguments
error and a line of more than three tokens with the too-many-arguments error,
whatever the tokens are; a line without any token fails with the error of the
emptiness test. -/
theorem create_count_errors (line : String) (c : Int) :
    ((split line).length = 1 →
      ParsedRequest.create line c = some
        { commandPort := c, components := split line, command := "", filename := "",
          dataPort := -1, errorFlag := true,
          errorMessage := "Error: Too few FTP request arguments were provided." }) ∧
    (3 < (split line).length →
      ParsedRequest.create line c = some
        { commandPort := c, components := split line, command := "", filename := "",
          dataPort := -1, errorFlag := true,
          errorMessage := "Error: Too many FTP request arguments were provided." }) ∧
    ((split line).length = 0 →
      ParsedRequest.create line c = some
        { commandPort := c, components := [], command := "", filename := "",
          dataPort := -1, errorFlag := true,
          errorMessage := "Error: The FTP request does not appear to have any valid arguments." }) := by
  refine ⟨?_, ?_, ?_⟩
  · intro h
    obtain ⟨t, ht⟩ := List.length_eq_one.mp h
    rw [create_one_token line c t ht, ht]
  · intro h
    exact create_many_tokens line c h
  · intro h
    exact create_no_tokens line c (List.length_eq_zero.mp h)

/-- C3, amended, at the lines `-l`, `-l a b c` and a line of white space. -/
theorem create_count_errors_witness :
    ParsedRequest.create "-l" 2021 = some
        { commandPort := 2021, components := ["-l"], command := "", filename := "",
          dataPort := -1, errorFlag := true,
          errorMessage := "Error: Too few FTP request arguments were provided." } ∧
      ParsedRequest.create "-l a b c" 2021 = some
        { commandPort := 2021, components := ["-l", "a", "b", "c"], command := "", filename := "",
          dataPort := -1, errorFlag := true,
          errorMessage := "Error: Too many FTP request arguments were provided." } ∧
      ParsedRequest.create " \t " 2021 = some
        { commandPort := 2021, components := [], command := "", filename := "",
          dataPort := -1, errorFlag := true,
          errorMessage := "Error: The FTP request does not appear to have any valid arguments." } :=
  ⟨(create_count_errors "-l" 2021).1 (by decide),
    (create_count_errors "-l a b c" 2021).2.1 (by decide),
    (create_count_errors " \t " 2021).2.2 (by decide)⟩

set_option maxRecDepth 20000 in
/-- C4: a line of two or three tokens whose first token is not exactly one of
the five commands fails with the unknown-command error, and the message
contains each of the five command strings. -/
theorem create_unknown_command (line : String) (c : Int) (t0 : String) (rest : List String)
    (hs : split line = t0 :: rest) (hlen : rest.length = 1 ∨ rest.length = 2)
    (hcmd : t0 ∉ recognisedCommands) :
    ParsedRequest.create line c = some
        { commandPort := c, components := split line, command := "", filename := "",
          dataPort := -1, errorFlag := true,
          errorMessage := "Error: An invalid command was provided. Please use \"-l\", \"-la\", \"-ll\", \"-lr\", or \"-g\"." } ∧
      ∀ cmd ∈ recognisedCommands, cmd.data <:+:
        ("Error: An invalid command was provided. Please use \"-l\", \"-la\", \"-ll\", \"-lr\", or \"-g\".").data := by
  refine ⟨?_, ?_⟩
  · rw [create_unknown line c t0 rest hs hlen hcmd, hs]
  · decide

/-- C4 at the line `-x 2000`, and at `-L 2000`: the comparison is
case-sensitive. -/
theorem create_unknown_command_witness :
    ParsedRequest.create "-x 2000" 2021 = some
        { commandPort := 2021, components := ["-x", "2000"], command := "", filename := "",
          dataPort := -1, errorFlag := true,
          errorMessage := "Error: An invalid command was provided. Please use \"-l\", \"-la\", \"-ll\", \"-lr\", or \"-g\"." } ∧
      ParsedRequest.create "-L 2000" 2021 = some
        { commandPort := 2021, components := ["-L", "2000"], command := "", filename := "",
          dataPort := -1, errorFlag := true,
          errorMessage := "Error: An invalid command was provided. Please use \"-l\", \"-la\", \"-ll\", \"-lr\", or \"-g\"." } :=
  ⟨(create_unknown_command "-x 2000" 2021 "-x" ["2000"] (by decide) (by decide) (by decide)).1,
    (create_unknown_command "-L 2000" 2021 "-L" ["2000"] (by decide) (by decide) (by decide)).1⟩

/-- C5: a list command with three tokens, or `-g` with two, fails with the
command-mismatch error; the message states the number of tokens and the
command given. -/
theorem create_command_mismatch (line : String) (c : Int) (t0 : String) (rest : List String)
    (hs : split line = t0 :: rest)
    (hlen : (rest.length = 2 ∧ t0 ∈ listCommands) ∨ (rest.length = 1 ∧ t0 = "-g")) :
    ParsedRequest.create line c = some
      { commandPort := c, components := split line, command := "", filename := "",
        dataPort := -1, errorFlag := true,
        errorMessage := "Error: Command mismatch: " ++ to_string ((split line).length : Nat) ++
          " arguments were provided with a command of " ++ t0 ++ "." } := by
  rw [create_mismatch line c t0 rest hs hlen, hs]
  rfl

/-- C5 at the lines `-l file.txt 2000` and `-g 2000`. -/
theorem create_command_mismatch_witness :
    ParsedRequest.create "-l file.txt 2000" 2021 = some
        { commandPort := 2021, components := ["-l", "file.txt", "2000"], command := "",
          filename := "", dataPort := -1, errorFlag := true,
          errorMessage := "Error: Command mismatch: 3 arguments were provided with a command of -l." } ∧
      ParsedRequest.create "-g 2000" 2021 = some
        { commandPort := 2021, components := ["-g", "2000"], command := "",
          filename := "", dataPort := -1, errorFlag := true,
          errorMessage := "Error: Command mismatch: 2 arguments were provided with a command of -g." } :=
  ⟨create_command_mismatch "-l file.txt 2000" 2021 "-l" ["file.txt", "2000"] (by decide)
      (by decide),
    create_command_mismatch "-g 2000" 2021 "-g" ["2000"] (by decide) (by decide)⟩

/-- C6: on a line that passes the token-count and command checks and whose
last token is not a base-10 integer written in full, parsing fails with the
non-numeric-port error. The line is a C string read from the socket buffer, so
it holds no NUL character. -/
theorem create_port_not_numeric (line : String) (c : Int) (cmd fname tok : String)
    (hshape : requestShape (split line) cmd fname tok)
    (hnul : ∀ ch ∈ line.data, ch ≠ '\x00')
    (hnot : isDecimalInteger tok = false) :
    ParsedRequest.create line c = some
      { commandPort := c, components := split line, command := cmd, filename := "",
        dataPort := -1, errorFlag := true,
        errorMessage := "Error: Non-numeric data port argument. Please provide a numeric port in the range: 1024..65535" } := by
  have hmem : tok ∈ split line := by
    rcases hshape with ⟨hs, -, -⟩ | ⟨hs, -⟩ <;> simp [hs]
  obtain ⟨hne, hch⟩ := split_mem hmem
  have hi := isInt_not_integer tok hne (fun ch h => (hch ch h).1)
    (fun ch h => hnul ch (hch ch h).2) hnot
  rw [create_port line c cmd fname tok hshape, if_pos hi]

/-- C6 at the lines `-l 2000x`, `-l abc`, `-l 0x800` and `-g f 20.5`. -/
theorem create_port_not_numeric_witness :
    ParsedRequest.create "-l 2000x" 2021 = some
        { commandPort := 2021, components := ["-l", "2000x"], command := "-l", filename := "",
          dataPort := -1, errorFlag := true,
          errorMessage := "Error: Non-numeric data port argument. Please provide a numeric port in the range: 1024..65535" } ∧
      ParsedRequest.create "-l abc" 2021 = some
        { commandPort := 2021, components := ["-l", "abc"], command := "-l", filename := "",
          dataPort := -1, errorFlag := true,
          errorMessage := "Error: Non-numeric data port argument. Please provide a numeric port in the range: 1024..65535" } ∧
      ParsedRequest.create "-l 0x800" 2021 = some
        { commandPort := 2021, components := ["-l", "0x800"], command := "-l", filename := "",
          dataPort := -1, errorFlag := true,
          errorMessage := "Error: Non-numeric data port argument. Please provide a numeric port in the range: 1024..65535" } ∧
      ParsedRequest.create "-g f 20.5" 2021 = some
        { commandPort := 2021, components := ["-g", "f", "20.5"], command := "-g", filename := "",
          dataPort := -1, errorFlag := true,
          errorMessage := "Error: Non-numeric data port argument. Please provide a numeric port in the range: 1024..65535" } :=
  ⟨create_port_not_numeric "-l 2000x" 2021 "-l" "" "2000x" (Or.inl (by decide)) (by decide)
      (by decide),
    create_port_not_numeric "-l abc" 2021 "-l" "" "abc" (Or.inl (by decide)) (by decide)
      (by decide),
    create_port_not_numeric "-l 0x800" 2021 "-l" "" "0x800" (Or.inl (by decide)) (by decide)
      (by decide),
    create_port_not_numeric "-g f 20.5" 2021 "-g" "f" "20.5" (Or.inr (by decide)) (by decide)
      (by decide)⟩

/-- C7 fails on the line `-l 4294969296` with control port 2021: the last
token is a decimal numeral whose value `2^32 + 2000` is above 65535, `strtol`
returns it as a `long`, the assignment to the `int` `dPort` keeps `2000`, the
range check passes and the request is accepted with data port 2000. -/
theorem create_port_wraps :
    requestShape (split "-l 4294969296") "-l" "" "4294969296" ∧
      isDecimalNumeral "4294969296" = true ∧
      numeralValue "4294969296" = 2 ^ 32 + 2000 ∧
      strtol (c_str "4294969296") = (4294969296, []) ∧
      isInt "4294969296" 0 = (true, 2000) ∧
      ParsedRequest.create "-l 4294969296" 2021 = some
        { commandPort := 2021, components := ["-l", "4294969296"], command := "-l",
          filename := "", dataPort := 2000, errorFlag := false, errorMessage := "" } :=
  ⟨Or.inl (by decide), by decide, by decide, by decide, by decide, by decide⟩

/-- C8: on a line that passes the token-count and command checks and whose
last token is a decimal numeral with value in `[1024, 65535]` equal to the
control port, parsing fails with the error that the data port is the command
port. -/
theorem create_port_is_control_port (line : String) (c : Int) (cmd fname tok : String)
    (hshape : requestShape (split line) cmd fname tok)
    (hnum : isDecimalNumeral tok = true)
    (hlo : 1024 ≤ numeralValue tok) (hhi : numeralValue tok ≤ 65535)
    (heq : (numeralValue tok : Int) = c) :
    ParsedRequest.create line c = some
      { commandPort := c, components := split line, command := cmd, filename := "",
        dataPort := -1, errorFlag := true,
        errorMessage := "Error: Invalid data port argument. The data port should not be the same as the command port." } := by
  have hi := isInt_numeral tok 0 hnum (by omega)
  have h2 : ¬ ((numeralValue tok : Int) < 1024 ∨ 65535 < (numeralValue tok : Int)) := by omega
  rw [create_port line c cmd fname tok hshape, hi]
  simp only [Bool.true_eq_false, if_false]
  rw [if_neg h2, if_pos heq]

/-- C8 at the line `-l 2000` with control port 2000. -/
theorem create_port_is_control_port_witness :
    ParsedRequest.create "-l 2000" 2000 = some
      { commandPort := 2000, components := ["-l", "2000"], command := "-l", filename := "",
        dataPort := -1, errorFlag := true,
        errorMessage := "Error: Invalid data port argument. The data port should not be the same as the command port." } :=
  create_port_is_control_port "-l 2000" 2000 "-l" "" "2000" (Or.inl (by decide)) (by decide)
    (by decide) (by decide) (by decide)

/-- C9, as stated, fails on a line of one blank: its token count, zero, is
wrong, yet the error reported is neither of the two count errors; the
emptiness test ahead of the four checks reports first. -/
theorem blank_line_no_count_error :
    (split " ").length = 0 ∧
      (ParsedRequest.create " " 2021).map ParsedRequest.errorMessage =
        some "Error: The FTP request does not appear to have any valid arguments." ∧
      (ParsedRequest.create " " 2021).map ParsedRequest.errorMessage ≠
        some "Error: Too few FTP request arguments were provided." ∧
      (ParsedRequest.create " " 2021).map ParsedRequest.errorMessage ≠
        some "Error: Too many FTP request arguments were provided." := by
  decide

/-- C9, amended: on a line with at least one token the error reported is the
one of the first failing check in the order component-count, command,
data-port, filename. A wrong token count reports the count error whatever the
tokens are; with two or three tokens a failing command check reports the
unknown-command or the command-mismatch error whatever the last token is; and
when both checks pass, an error, if any, is one of the three data-port
errors. -/
theorem create_error_order (line : String) (c : Int) (hne : split line ≠ []) :
    ((split line).length < 2 →
      ParsedRequest.create line c = some
        { commandPort := c, components := split line, command := "", filename := "",
          dataPort := -1, errorFlag := true,
          errorMessage := "Error: Too few FTP request arguments were provided." }) ∧
    (3 < (split line).length →
      ParsedRequest.create line c = some
        { commandPort := c, components := split line, command := "", filename := "",
          dataPort := -1, errorFlag := true,
          errorMessage := "Error: Too many FTP request arguments were provided." }) ∧
    (∀ t0 rest, split line = t0 :: rest → (rest.length = 1 ∨ rest.length = 2) →
      ¬ ((rest.length = 1 ∧ t0 ∈ listCommands) ∨ (rest.length = 2 ∧ t0 = "-g")) →
      ParsedRequest.create line c = some
        { commandPort := c, components := split line, command := "", filename := "",
          dataPort := -1, errorFlag := true,
          errorMessage :=
            if t0 ∈ recognisedCommands then
              "Error: Command mismatch: " ++ to_string ((split line).length : Nat) ++
                " arguments were provided with a command of " ++ t0 ++ "."
            else
              "Error: An invalid command was provided. Please use \"-l\", \"-la\", \"-ll\", \"-lr\", or \"-g\"." }) ∧
    (∀ cmd fname tok, requestShape (split line) cmd fname tok →
      ∃ r, ParsedRequest.create line c = some r ∧
        (r.errorFlag = true → r.errorMessage ∈
          ["Error: Non-numeric data port argument. Please provide a numeric port in the range: 1024..65535",
            "Error: Invalid data port argument. Please provide a numeric port in the range: 1024..65535",
            "Error: Invalid data port argument. The data port should not be the same as the command port."])) := by
  refine ⟨?_, ?_, ?_, ?_⟩
  · intro h
    rcases hs : split line with _ | ⟨t, _ | ⟨t1, rest⟩⟩
    · exact absurd hs hne
    · rw [create_one_token line c t hs]
    · rw [hs] at h
      simp only [List.length_cons] at h
      omega
  · intro h
    exact create_many_tokens line c h
  · intro t0 rest hs hlen hnot
    by_cases hrec : t0 ∈ recognisedCommands
    · have hmis : (rest.length = 2 ∧ t0 ∈ listCommands) ∨ (rest.length = 1 ∧ t0 = "-g") := by
        simp only [recognisedCommands, List.mem_cons, List.mem_singleton, List.not_mem_nil,
          or_false] at hrec
        simp only [listCommands, List.mem_cons, List.mem_singleton, List.not_mem_nil,
          or_false] at hnot ⊢
        rcases hlen with h1 | h1 <;> simp only [h1] at hnot ⊢ <;> simp at hnot ⊢ <;> tauto
      rw [create_mismatch line c t0 rest hs hmis, if_pos hrec, hs]
      rfl
    · rw [create_unknown line c t0 rest hs hlen hrec, if_neg hrec, hs]
  · intro cmd fname tok hshape
    refine ⟨_, create_port line c cmd fname tok hshape, ?_⟩
    split_ifs <;> simp

/-- C9, amended, at the lines `-x abc`, `-l file.txt 2000x` and `-l`. -/
theorem create_error_order_witness :
    ParsedRequest.create "-x abc" 2021 = some
        { commandPort := 2021, components := ["-x", "abc"], command := "", filename := "",
          dataPort := -1, errorFlag := true,
          errorMessage := "Error: An invalid command was provided. Please use \"-l\", \"-la\", \"-ll\", \"-lr\", or \"-g\"." } ∧
      ParsedRequest.create "-l file.txt 2000x" 2021 = some
        { commandPort := 2021, components := ["-l", "file.txt", "2000x"], command := "",
          filename := "", dataPort := -1, errorFlag := true,
          errorMessage := "Error: Command mismatch: 3 arguments were provided with a command of -l." } ∧
      ParsedRequest.create "-l" 2021 = some
        { commandPort := 2021, components := ["-l"], command := "", filename := "",
          dataPort := -1, errorFlag := true,
          errorMessage := "Error: Too few FTP request arguments were provided." } :=
  ⟨(create_error_order "-x abc" 2021 (by decide)).2.2.1 "-x" ["abc"] (by decide) (by decide)
      (by decide),
    (create_error_order "-l file.txt 2000x" 2021 (by decide)).2.2.1 "-l" ["file.txt", "2000x"]
      (by decide) (by decide) (by decide),
    (create_error_order "-l" 2021 (by decide)).1 (by decide)⟩

/-- C10 fails on the line `-l abc`: validation fails at the data-port check,
after `commandIsValid` has stored the command, so the object carries the error
flag together with `command = "-l"`. `processClientRequest` reads the members
before it tests the flag and reports the rejected line as a request for a
listing on port -1; for a line rejected earlier, such as `-x abc`, the command
is empty and nothing is reported. -/
theorem port_failure_keeps_command :
    ParsedRequest.create "-l abc" 2021 = some
      { commandPort := 2021, components := ["-l", "abc"], command := "-l", filename := "",
        dataPort := -1, errorFlag := true,
        errorMessage := "Error: Non-numeric data port argument. Please provide a numeric port in the range: 1024..65535" } ∧
      (ParsedRequest.create "-l abc" 2021).map ParsedRequest.command ≠ some "" ∧
      (ParsedRequest.create "-l abc" 2021).map requestLog =
        some (some "List directory requested on port -1.") ∧
      (ParsedRequest.create "-x abc" 2021).map requestLog = some none := by
  decide

/-- What the object holds when its error flag is up: `filename` is empty and
`dataPort` is the default `-1`; `command` is empty when the line fails the
emptiness, count or command check, and is the first token when the line passes
these and fails the data-port check. -/
theorem create_error_fields (line : String) (c : Int) :
    (∃ r, ParsedRequest.create line c = some r) ∧
      ∀ r, ParsedRequest.create line c = some r → r.errorFlag = true →
        r.filename = "" ∧ r.dataPort = -1 ∧
          (∀ cmd fname tok, requestShape (split line) cmd fname tok → r.command = cmd) ∧
          ((¬ ∃ cmd fname tok, requestShape (split line) cmd fname tok) → r.command = "") := by
  rcases tokens_cases (split line) with h | ⟨t, h⟩ | h | ⟨t0, rest, h, hl, hc⟩ |
      ⟨t0, rest, h, hl⟩ | ⟨cmd, fname, tok, h⟩
  · refine ⟨⟨_, create_no_tokens line c h⟩, ?_⟩
    intro r hr _
    rw [create_no_tokens line c h] at hr
    cases hr
    refine ⟨rfl, rfl, ?_, fun _ => rfl⟩
    intro cmd fname tok hshape
    obtain ⟨rest, hcons, -⟩ := requestShape_cons hshape
    rw [h] at hcons
    exact absurd hcons (by simp)
  · refine ⟨⟨_, create_one_token line c t h⟩, ?_⟩
    intro r hr _
    rw [create_one_token line c t h] at hr
    cases hr
    refine ⟨rfl, rfl, ?_, fun _ => rfl⟩
    intro cmd fname tok hshape
    obtain ⟨rest, hcons, hlen⟩ := requestShape_cons hshape
    rw [h] at hcons
    simp only [List.cons.injEq] at hcons
    obtain ⟨-, hrest⟩ := hcons
    subst hrest
    simp at hlen
  · refine ⟨⟨_, create_many_tokens line c h⟩, ?_⟩
    intro r hr _
    rw [create_many_tokens line c h] at hr
    cases hr
    refine ⟨rfl, rfl, ?_, fun _ => rfl⟩
    intro cmd fname tok hshape
    obtain ⟨rest, hcons, hlen⟩ := requestShape_cons hshape
    rw [hcons, List.length_cons] at h
    omega
  · refine ⟨⟨_, create_unknown line c t0 rest h hl hc⟩, ?_⟩
    intro r hr _
    rw [create_unknown line c t0 rest h hl hc] at hr
    cases hr
    refine ⟨rfl, rfl, ?_, fun _ => rfl⟩
    intro cmd fname tok hshape
    have hmem := requestShape_cmd hshape
    obtain ⟨rest1, hcons, -⟩ := requestShape_cons hshape
    rw [h] at hcons
    simp only [List.cons.injEq] at hcons
    rw [← hcons.1] at hmem
    exact absurd hmem hc
  · refine ⟨⟨_, create_mismatch line c t0 rest h hl⟩, ?_⟩
    intro r hr _
    rw [create_mismatch line c t0 rest h hl] at hr
    cases hr
    refine ⟨rfl, rfl, ?_, fun _ => rfl⟩
    intro cmd fname tok hshape
    obtain ⟨rest1, hcons, hlen⟩ := requestShape_cons hshape
    rw [h] at hcons
    simp only [List.cons.injEq] at hcons
    obtain ⟨h1, h2⟩ := hcons
    subst h1 h2
    rcases hl with ⟨ha, hb⟩ | ⟨ha, hb⟩ <;> rcases hlen with ⟨hx, hy⟩ | ⟨hx, hy⟩
    · omega
    · exact absurd hy (listCommands_ne_get hb)
    · exact absurd hb (listCommands_ne_get hy)
    · omega
  · refine ⟨⟨_, create_port line c cmd fname tok h⟩, ?_⟩
    intro r hr hflag
    have hcmd : ∀ cmd1 fname1 tok1, requestShape (split line) cmd1 fname1 tok1 →
        cmd = cmd1 := by
      intro cmd1 fname1 tok1 h1
      obtain ⟨ra, ha, -⟩ := requestShape_cons h
      obtain ⟨rb, hb, -⟩ := requestShape_cons h1
      rw [ha] at hb
      simp only [List.cons.injEq] at hb
      exact hb.1
    rw [create_port line c cmd fname tok h] at hr
    split_ifs at hr with h1 h2 h3
    · cases hr
      exact ⟨rfl, rfl, hcmd, fun hno => absurd ⟨cmd, fname, tok, h⟩ hno⟩
    · cases hr
      exact ⟨rfl, rfl, hcmd, fun hno => absurd ⟨cmd, fname, tok, h⟩ hno⟩
    · cases hr
      exact ⟨rfl, rfl, hcmd, fun hno => absurd ⟨cmd, fname, tok, h⟩ hno⟩
    · cases hr
      exact absurd hflag (by simp)

/-- The fields of the flagged object at the line `-l abc` with control port
2021. -/
theorem create_error_fields_witness :
    ("" : String) = "" ∧ (-1 : Int) = -1 ∧
      (∀ cmd fname tok, requestShape (split "-l abc") cmd fname tok → "-l" = cmd) ∧
      ((¬ ∃ cmd fname tok, requestShape (split "-l abc") cmd fname tok) → "-l" = "") :=
  (create_error_fields "-l abc" 2021).2
    { commandPort := 2021, components := ["-l", "abc"], command := "-l", filename := "",
      dataPort := -1, errorFlag := true,
      errorMessage := "Error: Non-numeric data port argument. Please provide a numeric port in the range: 1024..65535" }
    (by decide) rfl

/-- C11: `parseRequest`, run by the constructor, returns a value `b` and
leaves an object `r` such that the error message is non-empty exactly when
the error flag is up, a raised flag comes with a message that starts with
`Error: `, and `b` is `true` exactly when the flag is down. -/
theorem parseRequest_flag_and_message (line : String) (c : Int) :
    ∃ b r,
      ParsedRequest.parseRequest
        { commandPort := c, components := [], command := "", filename := "",
          dataPort := -1, errorFlag := false, errorMessage := "" } line = some (b, r) ∧
      ParsedRequest.create line c = some r ∧
      (r.errorMessage ≠ "" ↔ r.errorFlag = true) ∧
      (r.errorFlag = true → "Error: ".data <+: r.errorMessage.data) ∧
      (b = true ↔ r.errorFlag = false) := by
  have key : ∀ r, ParsedRequest.create line c = some r →
      (r.errorMessage ≠ "" ↔ r.errorFlag = true) ∧
        (r.errorFlag = true → "Error: ".data <+: r.errorMessage.data) := by
    intro r hr
    rcases tokens_cases (split line) with h | ⟨t, h⟩ | h | ⟨t0, rest, h, hl, hc⟩ |
        ⟨t0, rest, h, hl⟩ | ⟨cmd, fname, tok, h⟩
    · rw [create_no_tokens line c h] at hr
      cases hr
      exact ⟨by dsimp only; decide, fun _ => by dsimp only; decide⟩
    · rw [create_one_token line c t h] at hr
      cases hr
      exact ⟨by dsimp only; decide, fun _ => by dsimp only; decide⟩
    · rw [create_many_tokens line c h] at hr
      cases hr
      exact ⟨by dsimp only; decide, fun _ => by dsimp only; decide⟩
    · rw [create_unknown line c t0 rest h hl hc] at hr
      cases hr
      exact ⟨by dsimp only; decide, fun _ => by dsimp only; decide⟩
    · rw [create_mismatch line c t0 rest h hl] at hr
      cases hr
      have hpre : "Error: ".data <+: ("Error: Command mismatch: " ++
          to_string ((rest.length + 1 : Nat) : Int) ++
          " arguments were provided with a command of " ++ t0 ++ ".").data := by
        simp only [String.data_append]
        exact ⟨"Command mismatch: ".data ++ (to_string ((rest.length + 1 : Nat) : Int)).data ++
          " arguments were provided with a command of ".data ++ t0.data ++ ".".data, by
            simp only [← List.append_assoc]
            rfl⟩
      refine ⟨?_, fun _ => hpre⟩
      simp only [iff_true]
      intro h0
      rw [h0] at hpre
      exact absurd hpre (by decide)
    · rw [create_port line c cmd fname tok h] at hr
      split_ifs at hr <;> cases hr
      · exact ⟨by dsimp only; decide, fun _ => by dsimp only; decide⟩
      · exact ⟨by dsimp only; decide, fun _ => by dsimp only; decide⟩
      · exact ⟨by dsimp only; decide, fun _ => by dsimp only; decide⟩
      · exact ⟨by simp, fun hf => absurd hf (by simp)⟩
  obtain ⟨r, hr⟩ := (create_ok_total line c)
  have hr1 := hr
  rw [create_eq, Option.map_eq_some'] at hr1
  obtain ⟨res, hres, hsnd⟩ := hr1
  obtain ⟨b, r1⟩ := res
  simp only at hsnd
  subst hsnd
  have hflag := parseRequest_flag _ line rfl (b, r1) hres
  simp only at hflag
  refine ⟨b, r1, hres, hr, (key r1 hr).1, (key r1 hr).2, ?_⟩
  rw [hflag]
  cases r1.errorFlag <;> simp

/-! ## Facts about the connection handling -/

theorem sendItems_eq (st : Session) (sock : Int) (items : List String) :
    sendItems st sock items =
      { incoming := st.incoming,
        events := st.events ++ items.map (Event.sendMessage sock) } := by
  induction items generalizing st with
  | nil => simp [sendItems]
  | cons i items ih =>
    rw [sendItems, ih]
    simp [Session.log]

theorem receiveMessage_session (st : Session) (sock : Int) :
    (receiveMessage st sock).2 =
      { incoming := st.incoming.tail,
        events := st.events ++ [Event.receiveMessage sock] } := by
  unfold receiveMessage
  cases st.incoming <;> rfl

theorem receiveMessage_message (st : Session) (sock : Int) :
    (receiveMessage st sock).1 = String.mk (c_str (st.incoming.headD "")) := by
  unfold receiveMessage
  cases st.incoming <;> rfl

/-- Without sizes the loop of `getListItems` never fails: it appends the
rendered name of every entry that passes the hidden-file test, in order. -/
theorem getListItemsLoop_no_size (w : World) (includeHidden : Bool) (entries : List dirent)
    (items : List String) :
    getListItemsLoop w includeHidden false entries items =
      some (items ++
        (entries.filter
          (fun e => includeHidden || e.d_name.data.head? != some '.')).map coloredListEntry) := by
  induction entries generalizing items with
  | nil => simp [getListItemsLoop]
  | cons e more ih =>
    unfold getListItemsLoop
    by_cases h : (includeHidden || e.d_name.data.head? != some '.') = true
    · simp only [h, if_true, Bool.false_eq_true, if_false]
      rw [ih]
      simp only [List.filter_cons, h, if_true, List.map_cons, List.append_assoc,
        List.singleton_append]
    · simp only [h, if_false, Bool.false_eq_true]
      rw [ih]
      simp only [List.filter_cons, h, if_false, Bool.false_eq_true]

/-- The lines the reading loop delivers are the lines of the content; the
bound of the loop is never reached. -/
theorem readLines_eq_linesOf (n : Nat) (cs : List Char) (hn : cs.length ≤ n) :
    readLines n cs = linesOf (String.mk cs) := by
  induction n generalizing cs with
  | zero =>
    have : cs = [] := List.length_eq_zero.mp (Nat.le_zero.mp hn)
    subst this
    simp [readLines, linesOf, List.splitOn]
  | succ n ih =>
    rcases hcs : cs with _ | ⟨c, cs1⟩
    · simp [readLines, linesOf, List.splitOn]
    · rw [← hcs]
      have hne : cs ≠ [] := by simp [hcs]
      have hsplit := List.takeWhile_append_dropWhile (fun ch => ch != '\n') cs
      have hpre : ∀ x ∈ cs.takeWhile (fun ch => ch != '\n'), ¬ ((x == '\n') = true) := by
        intro x hx
        simpa using List.mem_takeWhile_imp hx
      unfold readLines
      simp only [List.isEmpty_eq_true, hne, if_false]
      rcases hpost : cs.dropWhile (fun ch => ch != '\n') with _ | ⟨d, rest⟩
      · rw [hpost, List.append_nil] at hsplit
        have hall : ∀ x ∈ cs, ¬ ((x == '\n') = true) := by
          rw [← hsplit]
          exact hpre
        have hrl : readLines n [] = [] := by
          cases n <;> simp [readLines]
        simp only [List.tail_nil, hrl, hsplit]
        simp only [linesOf, List.splitOn, List.splitOnP_eq_single _ cs hall,
          List.getLast?_singleton, Option.some.injEq, hne, if_false, List.map_cons,
          List.map_nil]
      · have hd : d = '\n' := by
          have := List.head_dropWhile_not (fun ch => ch != '\n') cs (by simp [hpost])
          simpa [hpost] using this
        subst hd
        rw [hpost] at hsplit
        have hlen : rest.length ≤ n := by
          have := congrArg List.length hsplit
          simp only [List.length_append, List.length_cons] at this
          omega
        simp only [List.tail_cons]
        rw [ih rest hlen]
        have hparts : cs.splitOn '\n' =
            cs.takeWhile (fun ch => ch != '\n') :: rest.splitOn '\n' := by
          conv_lhs => rw [← hsplit]
          exact List.splitOnP_first _ _ hpre '\n' (by simp) rest
        obtain ⟨q, qs, hq⟩ := List.exists_cons_of_ne_nil
          (List.splitOnP_ne_nil (fun ch => ch == '\n') rest)
        have hq1 : rest.splitOn '\n' = q :: qs := hq
        simp only [linesOf, hparts, hq1, List.getLast?_cons_cons]
        split_ifs with hlast
        · simp [List.dropLast]
        · simp

theorem sendDirectoryList_flat (w : World) (st : Session) (sock : Int)
    (showHidden showSize : Bool) :
    sendDirectoryList w st sock showHidden showSize false =
      match getListItems w "." showHidden showSize with
      | none => Outcome.thrown { incoming := st.incoming, events := st.events ++ [Event.terminate] }
      | some items =>
        Outcome.returned
          { incoming := st.incoming,
            events := st.events ++ items.map (Event.sendMessage sock) ++
              [Event.sendMessage sock "\\done"] } := by
  unfold sendDirectoryList
  simp only [Bool.not_false, if_true]
  cases getListItems w "." showHidden showSize with
  | none => rfl
  | some items =>
    simp only [sendItems_eq]
    rfl

theorem sendRequestedFile_eq (w : World) (st : Session) (clientSock dataSock : Int)
    (r : ParsedRequest) :
    sendRequestedFile w st clientSock dataSock r =
      match w.ifstream r.filename with
      | some content =>
        if contains (String.mk (c_str (st.incoming.headD ""))) "\\cancel" = true then
          { incoming := st.incoming.tail,
            events := st.events ++ [Event.sendMessage dataSock "\\good",
              Event.receiveMessage clientSock, Event.sendMessage dataSock "\\done"] }
        else
          { incoming := st.incoming.tail,
            events := st.events ++ [Event.sendMessage dataSock "\\good",
              Event.receiveMessage clientSock] ++
              (linesOf content).map (Event.sendMessage dataSock) ++
              [Event.sendMessage dataSock "\\done"] }
      | none =>
        { incoming := st.incoming,
          events := st.events ++ [Event.sendMessage dataSock "\\bad",
            Event.sendMessage dataSock ("Response: Error - \"" ++ r.filename ++ "\" not found"),
            Event.sendMessage dataSock "\\done"] } := by
  unfold sendRequestedFile
  cases hfile : w.ifstream r.filename with
  | none =>
    simp [hfile, Session.log, BAD_MSG, DONE_MSG]
  | some content =>
    simp only [hfile, receiveMessage_session, receiveMessage_message, sendItems_eq,
      String.length, readLines_eq_linesOf _ _ (le_refl _), Session.log, GOOD_MSG, DONE_MSG,
      CANCEL_MSG]
    cases hb : contains (String.mk (c_str (st.incoming.headD ""))) "\\cancel" with
    | true =>
      simp only [Bool.not_true, Bool.false_eq_true, if_false, if_true]
      simp
    | false =>
      simp only [Bool.not_false, if_true, Bool.false_eq_true, if_false]
      simp

theorem processDataResponse_events (w : World) (st : Session) (r : ParsedRequest)
    (clientHost : String) (clientSock : Int) :
    ∃ later, (finalSession (processDataResponse w st r clientHost clientSock)).events =
      st.events ++ later := by
  unfold processDataResponse
  simp only [receiveMessage_session, Session.log]
  split_ifs
  all_goals first
    | (rw [sendDirectoryList_flat]
       cases getListItems w "." _ _ <;>
         exact ⟨_, by simp only [finalSession, Session.log, List.append_assoc]; rfl⟩)
    | (unfold sendDirectoryList
       simp only [Bool.not_true, Bool.false_eq_true, if_false, sendItems_eq, Session.log]
       exact ⟨_, by simp only [finalSession, List.append_assoc]; rfl⟩)
    | (rw [sendRequestedFile_eq]
       cases w.ifstream r.filename with
       | none => exact ⟨_, by simp only [finalSession, Session.log, List.append_assoc]; rfl⟩
       | some content =>
         simp only
         split_ifs <;>
           exact ⟨_, by simp only [finalSession, Session.log, List.append_assoc]; rfl⟩)
    | exact ⟨_, by simp only [finalSession, Session.log, List.append_assoc]; rfl⟩

/-! ## What a call of `sendMessage` puts on the socket -/

theorem c_str_eq_self (t : String) (h : ∀ ch ∈ t.data, ch ≠ '\x00') : c_str t = t.data := by
  unfold c_str
  apply List.takeWhile_eq_self_iff.mpr
  intro d hd
  simpa using h d hd

/-- When every `write` accepts all that is offered, a message without NUL
reaches the socket whole, followed by one newline. -/
theorem sendMessage_whole (m : String) (h : ∀ ch ∈ m.data, ch ≠ '\x00') :
    sendMessage m [] = m.data ++ ['\n'] := by
  have hc : c_str (m ++ "\n") = m.data ++ ['\n'] := by
    rw [c_str_eq_self]
    · rfl
    · intro ch hch
      have hch1 : ch ∈ m.data ++ ['\n'] := hch
      rcases List.mem_append.mp hch1 with h1 | h1
      · exact h ch h1
      · have : ch = '\n' := by simpa using h1
        subst this
        decide
  unfold sendMessage
  simp only [hc]
  unfold sendMessageLoop
  simp

theorem readLines_mem (n : Nat) (cs : List Char) :
    ∀ l ∈ readLines n cs, ∀ ch ∈ l.data, ch ∈ cs := by
  induction n generalizing cs with
  | zero => simp [readLines]
  | succ n ih =>
    intro l hl ch hch
    unfold readLines at hl
    split_ifs at hl with hempty
    · simp at hl
    · rcases List.mem_cons.mp hl with h1 | h1
      · subst h1
        exact (List.takeWhile_prefix (fun ch => ch != '\n')).subset hch
      · have h2 := ih _ l h1 ch hch
        exact (List.dropWhile_suffix (fun ch => ch != '\n')).subset (List.mem_of_mem_tail h2)

/-- Every character of a line of a content is a character of the content. -/
theorem linesOf_mem (content : String) :
    ∀ l ∈ linesOf content, ∀ ch ∈ l.data, ch ∈ content.data := by
  have h := readLines_eq_linesOf content.data.length content.data (le_refl _)
  intro l hl
  exact readLines_mem content.data.length content.data l (by rw [h]; exact hl)

theorem wire_append (sock : Int) (a b : List Event) :
    wire sock (a ++ b) = wire sock a ++ wire sock b := by
  induction a with
  | nil => simp [wire]
  | cons e a ih =>
    cases e <;> simp [wire, ih]

theorem wire_sends (sock : Int) (ms : List String)
    (h : ∀ m ∈ ms, ∀ ch ∈ m.data, ch ≠ '\x00') :
    wire sock (ms.map (Event.sendMessage sock)) =
      (ms.map (fun m => m.data ++ ['\n'])).flatten := by
  induction ms with
  | nil => simp [wire]
  | cons m ms ih =>
    simp only [List.map_cons, wire, if_true, List.flatten_cons]
    rw [sendMessage_whole m (h m (by simp)), ih (fun x hx => h x (by simp [hx]))]

/-! ## The claims on the connection handling -/

/-- C12: when the request fails validation `processClientRequest` does one
thing, it sends the error message of the parser on the control connection: no
acknowledgment, no further read, no data connection. When the request passes
validation the first thing it does is to send `\good` on the control
connection. -/
theorem processClientRequest_control (w : World) (st : Session) (request : String)
    (clientSock : Int) (clientHost : String) :
    ∃ r, ParsedRequest.create request (w.portFromSocket clientSock) = some r ∧
      (r.errorFlag = true →
        processClientRequest w st request clientSock clientHost = some (Outcome.returned
          { incoming := st.incoming,
            events := st.events ++ [Event.sendMessage clientSock r.errorMessage] })) ∧
      (r.errorFlag = false →
        ∃ outcome later,
          processClientRequest w st request clientSock clientHost = some outcome ∧
          (finalSession outcome).events =
            st.events ++ Event.sendMessage clientSock "\\good" :: later) := by
  obtain ⟨r, hr⟩ := create_ok_total request (w.portFromSocket clientSock)
  refine ⟨r, hr, ?_, ?_⟩
  · intro hflag
    unfold processClientRequest
    simp only [hr, hflag, if_true]
    rfl
  · intro hflag
    unfold processClientRequest
    simp only [hr, hflag, Bool.false_eq_true, if_false]
    obtain ⟨later, hl⟩ := processDataResponse_events w
      (st.log (Event.sendMessage clientSock GOOD_MSG)) r clientHost clientSock
    refine ⟨_, later, rfl, ?_⟩
    rw [hl]
    simp [Session.log, GOOD_MSG]

set_option maxRecDepth 100000 in
/-- C13 fails for the valid request `-ll 2000` in a directory that holds a
regular file with a name of 27 characters: the rendered name is 41 characters
long, the padding count `40 - 41` is negative, `string(offset, ' ')` throws
and nobody catches. The acknowledgment is sent, the readiness message read
and the data connection opened; then the process ends: no response is sent on
the data connection and the data connection is not closed. -/
theorem long_name_listing_terminates :
    ParsedRequest.create "-ll 2000" 2021 = some
        { commandPort := 2021, components := ["-ll", "2000"], command := "-ll", filename := "",
          dataPort := 2000, errorFlag := false, errorMessage := "" } ∧
      (coloredListEntry { d_name := "abcdefghijklmnopqrstuvwxyz0", d_type := DT_REG }).length
        = 41 ∧
      getListItems longNameWorld "." true true = none ∧
      processClientRequest longNameWorld { incoming := ["ready"], events := [] } "-ll 2000" 3
          "client" =
        some (Outcome.thrown
          { incoming := [],
            events := [Event.sendMessage 3 "\\good", Event.receiveMessage 3,
              Event.getDataSocket "client" 2000, Event.terminate] }) := by
  decide

/-- C14: when the requested file cannot be opened `sendRequestedFile` sends
three messages on the data connection, `\bad`, a line that names the file as
not found, and `\done`; it reads nothing from the control connection. -/
theorem sendRequestedFile_not_found (w : World) (st : Session) (clientSock dataSock : Int)
    (r : ParsedRequest) (hfile : w.ifstream r.filename = none) :
    sendRequestedFile w st clientSock dataSock r =
      { incoming := st.incoming,
        events := st.events ++ [Event.sendMessage dataSock "\\bad",
          Event.sendMessage dataSock ("Response: Error - \"" ++ r.filename ++ "\" not found"),
          Event.sendMessage dataSock "\\done"] } := by
  rw [sendRequestedFile_eq, hfile]

/-- C14 for the request `-g missing.txt 2000` where no file can be opened. -/
theorem sendRequestedFile_not_found_witness :
    sendRequestedFile smallWorld { incoming := ["go"], events := [] } 3 7
        { commandPort := 2021, components := ["-g", "missing.txt", "2000"], command := "-g",
          filename := "missing.txt", dataPort := 2000, errorFlag := false, errorMessage := "" } =
      { incoming := ["go"],
        events := [Event.sendMessage 7 "\\bad",
          Event.sendMessage 7 "Response: Error - \"missing.txt\" not found",
          Event.sendMessage 7 "\\done"] } :=
  sendRequestedFile_not_found smallWorld { incoming := ["go"], events := [] } 3 7
    { commandPort := 2021, components := ["-g", "missing.txt", "2000"], command := "-g",
      filename := "missing.txt", dataPort := 2000, errorFlag := false, errorMessage := "" } rfl

/-- C15: when the file can be opened and the line the client sends after the
file-ready `\good` contains `\cancel`, the messages on the data connection are
`\good` and then `\done`: no line of the file is sent, whatever the file
holds. -/
theorem sendRequestedFile_cancelled (w : World) (st : Session) (clientSock dataSock : Int)
    (r : ParsedRequest) (content buffer : String) (later : List String)
    (hfile : w.ifstream r.filename = some content)
    (hin : st.incoming = buffer :: later)
    (hcancel : contains (String.mk (c_str buffer)) "\\cancel" = true) :
    sendRequestedFile w st clientSock dataSock r =
      { incoming := later,
        events := st.events ++ [Event.sendMessage dataSock "\\good",
          Event.receiveMessage clientSock, Event.sendMessage dataSock "\\done"] } := by
  rw [sendRequestedFile_eq, hfile]
  simp only [hin, List.headD_cons, hcancel, if_true, List.tail_cons]

set_option maxRecDepth 100000 in
/-- C15 for the file `notes.txt` and the client line `\cancel`. -/
theorem sendRequestedFile_cancelled_witness :
    sendRequestedFile notesWorld { incoming := ["\\cancel"], events := [] } 3 7
        { commandPort := 2021, components := ["-g", "notes.txt", "2000"], command := "-g",
          filename := "notes.txt", dataPort := 2000, errorFlag := false, errorMessage := "" } =
      { incoming := [],
        events := [Event.sendMessage 7 "\\good", Event.receiveMessage 3,
          Event.sendMessage 7 "\\done"] } :=
  sendRequestedFile_cancelled notesWorld { incoming := ["\\cancel"], events := [] } 3 7
    { commandPort := 2021, components := ["-g", "notes.txt", "2000"], command := "-g",
      filename := "notes.txt", dataPort := 2000, errorFlag := false, errorMessage := "" }
    "one\ntwo\n" "\\cancel" [] rfl rfl (by decide)

theorem full_buffer_no_cancel :
    contains (String.mk (List.replicate 1024 'x')) "\\cancel" = false := by
  unfold contains
  simp only [decide_eq_false_iff_not]
  intro h
  have hm : '\\' ∈ List.replicate 1024 'x' := h.subset (by decide)
  simp only [List.mem_replicate] at hm
  exact absurd hm.2 (by decide)

/-- A message shorter than the buffer and without NUL is read as it was
sent, whatever lies behind the buffer. -/
theorem c_str_bufferAfterRecv_short (sent behind : String) (hlen : sent.data.length < 1024)
    (hnul : ∀ ch ∈ sent.data, ch ≠ '\x00') :
    c_str (bufferAfterRecv sent behind) = sent.data := by
  have htake : sent.data.take 1024 = sent.data := List.take_of_length_le (by omega)
  obtain ⟨k, hk⟩ : ∃ k, 1024 - sent.data.length = k + 1 := ⟨1023 - sent.data.length, by omega⟩
  unfold c_str bufferAfterRecv
  simp only [htake, hk, List.replicate_succ, List.append_assoc, List.cons_append]
  rw [List.takeWhile_append_of_pos (by
    intro ch hch
    simpa using hnul ch hch)]
  simp

/-- A message that fills the buffer is read on with the bytes behind it. -/
theorem bufferAfterRecv_filled (l : List Char) (behind : String) (hlen : l.length = 1024) :
    bufferAfterRecv (String.mk l) behind = String.mk (l ++ behind.data) := by
  have htake : l.take 1024 = l := List.take_of_length_le (by omega)
  unfold bufferAfterRecv
  simp only [htake, hlen, Nat.sub_self, List.replicate_zero, List.append_nil]

theorem bufferAfterRecv_full :
    bufferAfterRecv (String.mk (List.replicate 1024 'x')) "\\cancel" =
      String.mk (List.replicate 1024 'x' ++ "\\cancel".data) :=
  bufferAfterRecv_filled _ _ (List.length_replicate 1024 'x')

theorem full_buffer_read_on :
    contains
      (String.mk (c_str (bufferAfterRecv (String.mk (List.replicate 1024 'x')) "\\cancel")))
      "\\cancel" = true := by
  have hc : c_str (String.mk (List.replicate 1024 'x' ++ "\\cancel".data)) =
      List.replicate 1024 'x' ++ "\\cancel".data := by
    apply c_str_eq_self
    intro ch hch
    have hch1 : ch ∈ List.replicate 1024 'x' ++ "\\cancel".data := hch
    simp only [List.mem_append, List.mem_replicate] at hch1
    rcases hch1 with ⟨-, rfl⟩ | hch1
    · decide
    · intro h0
      subst h0
      exact absurd hch1 (by decide)
  unfold contains
  rw [bufferAfterRecv_full, hc]
  simp only [decide_eq_true_eq]
  exact ⟨List.replicate 1024 'x', [], List.append_nil _⟩

theorem full_buffer_cancels (st : Session) (later : List String)
    (hin : st.incoming =
      bufferAfterRecv (String.mk (List.replicate 1024 'x')) "\\cancel" :: later)
    (r : ParsedRequest) (hname : r.filename = "notes.txt") :
    sendRequestedFile notesWorld st 3 7 r =
      { incoming := later,
        events := st.events ++ [Event.sendMessage 7 "\\good", Event.receiveMessage 3,
          Event.sendMessage 7 "\\done"] } := by
  have hfile : notesWorld.ifstream r.filename = some "one\ntwo\n" := by
    rw [hname]
    rfl
  rw [sendRequestedFile_eq, hfile, hin]
  exact if_pos full_buffer_read_on

/-- C16, as stated, fails in three ways. A line of the file with a NUL is not
sent whole: `sendMessage` takes the length of the C string, so for the content
`a`, NUL, `b`, newline, `c`, newline the first line reaches the socket as the
single byte `a` without a newline, and the peer reads the one line `ac`. When
a `write` accepts one byte only, the line `one` reaches the socket as `oone`.
And when the readiness message fills the buffer of 1024 bytes, the string is
read on behind the buffer: the 1024 bytes received hold no `\cancel`, the
bytes behind the buffer do, and no line of the file is sent. -/
theorem file_line_not_sent_whole :
    (sendRequestedFile nulWorld { incoming := ["go"], events := [] } 3 7
        { commandPort := 2021, components := ["-g", "data.bin", "2000"], command := "-g",
          filename := "data.bin", dataPort := 2000, errorFlag := false, errorMessage := "" } =
      { incoming := [],
        events := [Event.sendMessage 7 "\\good", Event.receiveMessage 3,
          Event.sendMessage 7 "a\x00b", Event.sendMessage 7 "c",
          Event.sendMessage 7 "\\done"] }) ∧
      sendMessage "a\x00b" [] = ['a'] ∧
      wire 7 [Event.sendMessage 7 "\\good", Event.receiveMessage 3,
          Event.sendMessage 7 "a\x00b", Event.sendMessage 7 "c",
          Event.sendMessage 7 "\\done"] = "\\good\nac\n\\done\n".data ∧
      sendMessage "one" [1] = "oone\n".data ∧
      contains (String.mk (List.replicate 1024 'x')) "\\cancel" = false ∧
      sendRequestedFile notesWorld
          { incoming := [bufferAfterRecv (String.mk (List.replicate 1024 'x')) "\\cancel"],
            events := [] }
          3 7
          { commandPort := 2021, components := ["-g", "notes.txt", "2000"], command := "-g",
            filename := "notes.txt", dataPort := 2000, errorFlag := false,
            errorMessage := "" } =
        { incoming := [],
          events := [Event.sendMessage 7 "\\good", Event.receiveMessage 3,
            Event.sendMessage 7 "\\done"] } := by
  refine ⟨by set_option maxRecDepth 100000 in decide, by decide,
    by set_option maxRecDepth 100000 in decide, by decide, full_buffer_no_cancel, ?_⟩
  exact full_buffer_cancels _ [] rfl _ rfl

/-- C16, amended: when the file can be opened, its content holds no NUL and
the readiness message, as `receiveMessage` reads it, does not contain
`\cancel`, then `sendRequestedFile` calls `sendMessage` on the data connection
with `\good`, then once per line of the content, in order, then with `\done`;
each of these calls, when `write` accepts what it is offered, puts the whole
message and one newline on the socket, so the data connection carries `\good`,
the lines of the file and `\done`, each followed by a newline. On every path
of `sendRequestedFile` the last message is `\done` on the data connection. -/
theorem sendRequestedFile_streams (w : World) (st : Session) (clientSock dataSock : Int)
    (r : ParsedRequest) :
    (∀ content, w.ifstream r.filename = some content →
      (∀ ch ∈ content.data, ch ≠ '\x00') →
      contains (String.mk (c_str (st.incoming.headD ""))) "\\cancel" = false →
      sendRequestedFile w st clientSock dataSock r =
        { incoming := st.incoming.tail,
          events := st.events ++ [Event.sendMessage dataSock "\\good",
            Event.receiveMessage clientSock] ++
            (linesOf content).map (Event.sendMessage dataSock) ++
            [Event.sendMessage dataSock "\\done"] } ∧
      (∀ m ∈ "\\good" :: linesOf content ++ ["\\done"],
        sendMessage m [] = m.data ++ ['\n']) ∧
      wire dataSock (sendRequestedFile w st clientSock dataSock r).events =
        wire dataSock st.events ++
          (("\\good" :: linesOf content ++ ["\\done"]).map
            (fun m => m.data ++ ['\n'])).flatten) ∧
    (sendRequestedFile w st clientSock dataSock r).events.getLast? =
      some (Event.sendMessage dataSock "\\done") := by
  constructor
  · intro content hfile hnul hgo
    have hlines : ∀ m ∈ linesOf content, ∀ ch ∈ m.data, ch ≠ '\x00' :=
      fun m hm ch hch => hnul ch (linesOf_mem content m hm ch hch)
    have hall : ∀ m ∈ "\\good" :: linesOf content ++ ["\\done"],
        ∀ ch ∈ m.data, ch ≠ '\x00' := by
      intro m hm
      simp only [List.cons_append, List.mem_cons, List.mem_append, List.mem_singleton,
        List.not_mem_nil, or_false] at hm
      rcases hm with rfl | hm | rfl
      · decide
      · exact hlines m hm
      · decide
    have hev : sendRequestedFile w st clientSock dataSock r =
        { incoming := st.incoming.tail,
          events := st.events ++ [Event.sendMessage dataSock "\\good",
            Event.receiveMessage clientSock] ++
            (linesOf content).map (Event.sendMessage dataSock) ++
            [Event.sendMessage dataSock "\\done"] } := by
      rw [sendRequestedFile_eq, hfile]
      simp only [hgo, Bool.false_eq_true, if_false]
    refine ⟨hev, fun m hm => sendMessage_whole m (hall m hm), ?_⟩
    rw [hev]
    simp only [wire_append, wire_sends dataSock (linesOf content) hlines]
    simp only [wire, if_true, List.append_nil, List.map_cons, List.map_append, List.map_nil,
      List.flatten_cons, List.flatten_append, List.flatten_nil, List.append_assoc,
      sendMessage_whole "\\good" (by decide), sendMessage_whole "\\done" (by decide)]
  · rw [sendRequestedFile_eq]
    cases w.ifstream r.filename with
    | none => simp
    | some content =>
      simp only
      split_ifs
      · simp
      · simp [List.getLast?_cons]

set_option maxRecDepth 100000 in
/-- C16, amended, for the file `notes.txt`, of content `one\ntwo\n`, and the
client line `go`. -/
theorem sendRequestedFile_streams_witness :
    sendRequestedFile notesWorld { incoming := ["go"], events := [] } 3 7
        { commandPort := 2021, components := ["-g", "notes.txt", "2000"], command := "-g",
          filename := "notes.txt", dataPort := 2000, errorFlag := false, errorMessage := "" } =
      { incoming := [],
        events := [Event.sendMessage 7 "\\good", Event.receiveMessage 3,
          Event.sendMessage 7 "one", Event.sendMessage 7 "two",
          Event.sendMessage 7 "\\done"] } ∧
      wire 7 (sendRequestedFile notesWorld { incoming := ["go"], events := [] } 3 7
        { commandPort := 2021, components := ["-g", "notes.txt", "2000"], command := "-g",
          filename := "notes.txt", dataPort := 2000, errorFlag := false,
          errorMessage := "" }).events = "\\good\none\ntwo\n\\done\n".data :=
  ⟨((sendRequestedFile_streams notesWorld { incoming := ["go"], events := [] } 3 7
      { commandPort := 2021, components := ["-g", "notes.txt", "2000"], command := "-g",
        filename := "notes.txt", dataPort := 2000, errorFlag := false, errorMessage := "" }).1
      "one\ntwo\n" rfl (by decide) (by decide)).1,
    ((sendRequestedFile_streams notesWorld { incoming := ["go"], events := [] } 3 7
      { commandPort := 2021, components := ["-g", "notes.txt", "2000"], command := "-g",
        filename := "notes.txt", dataPort := 2000, errorFlag := false, errorMessage := "" }).1
      "one\ntwo\n" rfl (by decide) (by decide)).2.2.trans (by decide)⟩

theorem getListItems_no_size (w : World) (includeHidden : Bool) (entries : List dirent)
    (hdir : w.opendir "." = some entries) :
    getListItems w "." includeHidden false =
      some ((entries.filter
        (fun e => includeHidden || e.d_name.data.head? != some '.')).map coloredListEntry) := by
  unfold getListItems
  rw [hdir]
  simp only
  rw [getListItemsLoop_no_size]
  rfl

/-- C17: for the entries `readdir` delivers, the response to `-l` is one
message per entry whose name does not begin with a dot and the response to
`-la` one message per entry, the rendered names in the order of the
enumeration, followed by `\done` as the last message on the data connection. -/
theorem list_response_entries (w : World) (st : Session) (r : ParsedRequest)
    (clientHost : String) (clientSock : Int) (entries : List dirent)
    (hdir : w.opendir "." = some entries) :
    (r.command = "-l" →
      processDataResponse w st r clientHost clientSock = Outcome.returned
        { incoming := st.incoming.tail,
          events := st.events ++
            [Event.receiveMessage clientSock, Event.getDataSocket clientHost r.dataPort] ++
            (entries.filter (fun e => e.d_name.data.head? != some '.')).map
              (fun e => Event.sendMessage (w.getDataSocket clientHost r.dataPort)
                (coloredListEntry e)) ++
            [Event.sendMessage (w.getDataSocket clientHost r.dataPort) "\\done",
              Event.close (w.getDataSocket clientHost r.dataPort)] }) ∧
    (r.command = "-la" →
      processDataResponse w st r clientHost clientSock = Outcome.returned
        { incoming := st.incoming.tail,
          events := st.events ++
            [Event.receiveMessage clientSock, Event.getDataSocket clientHost r.dataPort] ++
            entries.map
              (fun e => Event.sendMessage (w.getDataSocket clientHost r.dataPort)
                (coloredListEntry e)) ++
            [Event.sendMessage (w.getDataSocket clientHost r.dataPort) "\\done",
              Event.close (w.getDataSocket clientHost r.dataPort)] }) := by
  constructor
  · intro hcmd
    unfold processDataResponse
    simp only [hcmd, beq_self_eq_true, if_true, receiveMessage_session, Session.log]
    rw [sendDirectoryList_flat, getListItems_no_size w false entries hdir]
    simp [Session.log, Function.comp_def]
  · intro hcmd
    have h1 : (("-la" : String) == "-l") = false := by decide
    unfold processDataResponse
    simp only [hcmd, h1, Bool.false_eq_true, if_false, beq_self_eq_true, if_true,
      receiveMessage_session, Session.log]
    rw [sendDirectoryList_flat, getListItems_no_size w true entries hdir]
    simp [Session.log, Function.comp_def]

set_option maxRecDepth 100000 in
/-- C17 in a directory with the entries `.profile` and `a`. -/
theorem list_response_entries_witness :
    processDataResponse smallWorld { incoming := ["ready"], events := [] }
        { commandPort := 2021, components := ["-l", "2000"], command := "-l", filename := "",
          dataPort := 2000, errorFlag := false, errorMessage := "" } "client" 3 =
      Outcome.returned
        { incoming := [],
          events := [Event.receiveMessage 3, Event.getDataSocket "client" 2000,
            Event.sendMessage 7 "\x1b[0;97;49ma\x1b[0m", Event.sendMessage 7 "\\done",
            Event.close 7] } ∧
      processDataResponse smallWorld { incoming := ["ready"], events := [] }
        { commandPort := 2021, components := ["-la", "2000"], command := "-la", filename := "",
          dataPort := 2000, errorFlag := false, errorMessage := "" } "client" 3 =
      Outcome.returned
        { incoming := [],
          events := [Event.receiveMessage 3, Event.getDataSocket "client" 2000,
            Event.sendMessage 7 "\x1b[0;35;49m.profile\x1b[0m",
            Event.sendMessage 7 "\x1b[0;97;49ma\x1b[0m", Event.sendMessage 7 "\\done",
            Event.close 7] } :=
  ⟨(list_response_entries smallWorld { incoming := ["ready"], events := [] }
      { commandPort := 2021, components := ["-l", "2000"], command := "-l", filename := "",
        dataPort := 2000, errorFlag := false, errorMessage := "" } "client" 3
      [{ d_name := ".profile", d_type := DT_REG }, { d_name := "a", d_type := DT_REG }]
      rfl).1 rfl,
    (list_response_entries smallWorld { incoming := ["ready"], events := [] }
      { commandPort := 2021, components := ["-la", "2000"], command := "-la", filename := "",
        dataPort := 2000, errorFlag := false, errorMessage := "" } "client" 3
      [{ d_name := ".profile", d_type := DT_REG }, { d_name := "a", d_type := DT_REG }]
      rfl).2 rfl⟩

set_option maxRecDepth 100000 in
/-- C18 fails for `-lr` in a directory with the regular files `.profile` and
`a`, both of size 5: `processDataResponse` asks for sizes, and
`getListItemsRecursive` does not read `withSize`, so the lines of the `-lr`
response are the path and the rendered name without a size, while the lines
of the `-ll` response end with the size. -/
theorem recursive_listing_has_no_size :
    processClientRequest smallWorld { incoming := ["ready"], events := [] } "-lr 2000" 3
          "client" =
        some (Outcome.returned
          { incoming := [],
            events := [Event.sendMessage 3 "\\good", Event.receiveMessage 3,
              Event.getDataSocket "client" 2000,
              Event.sendMessage 7 "./\x1b[0;35;49m.profile\x1b[0m",
              Event.sendMessage 7 "./\x1b[0;97;49ma\x1b[0m",
              Event.sendMessage 7 "\\done", Event.close 7] }) ∧
      processClientRequest smallWorld { incoming := ["ready"], events := [] } "-ll 2000" 3
          "client" =
        some (Outcome.returned
          { incoming := [],
            events := [Event.sendMessage 3 "\\good", Event.receiveMessage 3,
              Event.getDataSocket "client" 2000,
              Event.sendMessage 7 "\x1b[0;35;49m.profile\x1b[0m                  5",
              Event.sendMessage 7 "\x1b[0;97;49ma\x1b[0m                         5",
              Event.sendMessage 7 "\\done", Event.close 7] }) := by
  decide

/-- C19 fails for the argument `2000abc`: it is not a decimal integer, `atoi`
converts its leading digits, and `getValidPort` returns 2000 without a prompt;
the prompting path, by contrast, rejects the line `2000abc`. -/
theorem getValidPort_accepts_trailing_text :
    isDecimalInteger "2000abc" = false ∧
      getValidPort 2 2 ["ftserver", "2000abc"] ["3000"] = some (2000, 0) ∧
      getValidPort 2 1 ["ftserver"] ["2000abc", "3000"] = some (3000, 2) := by
  decide

/-- C20 fails for the message `ab` when the first `write` accepts one byte:
the next `write` offers the buffer from its start again, and the socket
receives `aab` and a newline instead of `ab` and a newline. -/
theorem sendMessage_repeats_bytes :
    sendMessage "ab" [1] = ['a', 'a', 'b', '\n'] ∧
      sendMessage "ab" [1] ≠ ("ab" ++ "\n").data ∧
      sendMessage "ab" [] = ("ab" ++ "\n").data := by
  decide

/-! ## Unreachable branches and the padding of a listing line -/

/-- A message that starts with `Error: Command mismatch: ` differs from any
message whose first eight characters are not `Error: C`. -/
theorem mismatch_message_ne (x y : String) (other : String)
    (h : other.data.take 8 ≠ "Error: C".data) :
    "Error: Command mismatch: " ++ x ++ " arguments were provided with a command of " ++ y ++
      "." ≠ other := by
  intro heq
  apply h
  rw [← heq]
  simp only [String.data_append, List.append_assoc]
  rw [List.take_append_of_le_length (by decide)]
  decide

/-- C21: for every request line and control port the constructor yields an
object, so `components[0]`, `components[1]` and `components[count - 1]` are
read in bounds, and its error message is neither the missing-file-name error
nor the fall-through error of `commandIsValid`. Every word of `split` is
non-empty and free of white space, and a component count that
`componentCountIsValid` accepts is 2 or 3. -/
theorem create_unreachable_errors (line : String) (c : Int) :
    (∃ r, ParsedRequest.create line c = some r ∧
      r.errorMessage ≠ "Error: No file name was provided. Please provide one" ∧
      r.errorMessage ≠ "Error: Invalid component count: commandIsValid().") ∧
    (∀ t ∈ split line, t ≠ "" ∧ ∀ ch ∈ t.data, isspace ch = false) ∧
    (∀ self : ParsedRequest, self.componentCountIsValid.1 = true →
      self.components.length = 2 ∨ self.components.length = 3) := by
  refine ⟨?_, ?_, ?_⟩
  · rcases tokens_cases (split line) with h | ⟨t, h⟩ | h | ⟨t0, rest, h, hl, hc⟩ |
        ⟨t0, rest, h, hl⟩ | ⟨cmd, fname, tok, h⟩
    · exact ⟨_, create_no_tokens line c h, by dsimp only; decide, by dsimp only; decide⟩
    · exact ⟨_, create_one_token line c t h, by dsimp only; decide, by dsimp only; decide⟩
    · exact ⟨_, create_many_tokens line c h, by dsimp only; decide, by dsimp only; decide⟩
    · exact ⟨_, create_unknown line c t0 rest h hl hc, by dsimp only; decide,
        by dsimp only; decide⟩
    · exact ⟨_, create_mismatch line c t0 rest h hl,
        mismatch_message_ne _ _ _ (by decide), mismatch_message_ne _ _ _ (by decide)⟩
    · refine ⟨_, create_port line c cmd fname tok h, ?_⟩
      split_ifs <;> exact ⟨by dsimp only; decide, by dsimp only; decide⟩
  · intro t ht
    obtain ⟨hne, hch⟩ := split_mem ht
    refine ⟨?_, fun ch hc => (hch ch hc).1⟩
    intro h0
    rw [h0] at hne
    exact hne rfl
  · intro self hok
    rw [componentCountIsValid_eq] at hok
    split_ifs at hok with h1 h2
    · exact absurd hok (by simp [ParsedRequest.raiseErrorFlag])
    · exact absurd hok (by simp [ParsedRequest.raiseErrorFlag])
    · omega

set_option maxRecDepth 100000 in
/-- C22 fails for a regular file with a name of 27 characters: the rendered
name, the name between the colour codes, is 41 characters long, so the padding
count `40 - 41` is `-1` once stored in the `int` `offset`, and
`string(offset, ' ')` throws: `getListItems` with sizes does not produce the
line. For the rendered names of 22 and 15 characters of a small directory the
line is the rendered name, 18 and 25 spaces, and the size. -/
theorem getListItems_negative_padding :
    (coloredListEntry { d_name := "abcdefghijklmnopqrstuvwxyz0", d_type := DT_REG }).length
        = 41 ∧
      toInt ((40 - (41 : Int)) % 2 ^ 64) = -1 ∧
      getListItems longNameWorld "." false true = none ∧
      getListItems smallWorld "." true true = some
        [coloredListEntry { d_name := ".profile", d_type := DT_REG } ++
            String.mk (List.replicate 18 ' ') ++ "5",
          coloredListEntry { d_name := "a", d_type := DT_REG } ++
            String.mk (List.replicate 25 ' ') ++ "5"] := by
  decide

end SimpleFTP
